import Mathlib

/-!
Verification development for the dot-matrix-rs Game Boy (DMG) emulator core.

The Rust sources (cart.rs, joypad.rs, mmu.rs, cpu.rs, ppu.rs) are embedded
shallowly:

* machine integers (`u8`, `u16`, `u32`) become `Nat`, reduced modulo `2^8`
  resp. `2^16` exactly at the points where the Rust code wraps (the sources
  use `wrapping_add`/`wrapping_sub` for register arithmetic; the remaining
  plain `+`/`-`/`*` on `u16` inside address computations are modelled with
  the two's-complement wrapping semantics of release builds, which is also
  the behaviour the spec declares: "invariants are enforced via masks and
  wrapping arithmetic");
* `Vec` indexing that can go out of bounds (the ROM byte vector, the
  framebuffer) is modelled with `Option`, `none` standing for a Rust panic;
  the 0x10000-byte `ram` vector is always indexed with a `u16`, hence in
  bounds, and is modelled as a total map `Nat → Nat`;
* the `Rc<RefCell<_>>` sharing between CPU, MMU and PPU is modelled by
  threading the shared `MMU` value explicitly.
-/

/-! ## Cart (src/cart.rs) -/

structure Cart where
  rom : List Nat
  title : String
  cartridge_type : Nat
  rom_size_code : Nat
  rom_size_bytes : Nat
  ram_size_code : Nat
  ram_size_bytes : Nat
  ram_enabled : Bool
  rom_bank_selected : Nat

/-- `Cart::read_rom`.  `none` models the panic on an out-of-range `Vec`
index (`self.rom[banked_addr]`) and the explicit
`panic!("Address out of ROM range")` arm. -/
def Cart.read_rom (c : Cart) (addr : Nat) : Option Nat :=
  if addr ≤ 0x3FFF then
    c.rom.get? addr
  else if addr ≤ 0x7FFF then
    c.rom.get? (c.rom_bank_selected * 0x4000 + (addr - 0x4000))
  else
    none

/-- `Cart::enable_ram`: RAM is enabled iff the lower nibble of the written
value is 0x0A. -/
def Cart.enable_ram (c : Cart) (value : Nat) : Cart :=
  { c with ram_enabled := (value &&& 0x0F) == 0x0A }

/-- `Cart::select_rom_bank`: low 5 bits, 0 coerced to 1. -/
def Cart.select_rom_bank (c : Cart) (value : Nat) : Cart :=
  let bank := value &&& 0x1F
  { c with rom_bank_selected := if bank = 0 then 1 else bank }

/-! ## Joypad (src/joypad.rs) -/

inductive JoypadButton
  | Right | Left | Up | Down | A | B | Select | Start

structure Joypad where
  select_buttons : Nat
  direction_buttons : Nat
  action_buttons : Nat

def Joypad.new : Joypad :=
  { select_buttons := 0x30, direction_buttons := 0x0F, action_buttons := 0x0F }

/-- `Joypad::press_button`: clear the button's active-low bit. -/
def Joypad.press_button (j : Joypad) (button : JoypadButton) : Joypad :=
  match button with
  | .Right => { j with direction_buttons := j.direction_buttons &&& 0xFE }
  | .Left => { j with direction_buttons := j.direction_buttons &&& 0xFD }
  | .Up => { j with direction_buttons := j.direction_buttons &&& 0xFB }
  | .Down => { j with direction_buttons := j.direction_buttons &&& 0xF7 }
  | .A => { j with action_buttons := j.action_buttons &&& 0xFE }
  | .B => { j with action_buttons := j.action_buttons &&& 0xFD }
  | .Select => { j with action_buttons := j.action_buttons &&& 0xFB }
  | .Start => { j with action_buttons := j.action_buttons &&& 0xF7 }

/-- `Joypad::release_button`: set the button's active-low bit. -/
def Joypad.release_button (j : Joypad) (button : JoypadButton) : Joypad :=
  match button with
  | .Right => { j with direction_buttons := j.direction_buttons ||| 0x01 }
  | .Left => { j with direction_buttons := j.direction_buttons ||| 0x02 }
  | .Up => { j with direction_buttons := j.direction_buttons ||| 0x04 }
  | .Down => { j with direction_buttons := j.direction_buttons ||| 0x08 }
  | .A => { j with action_buttons := j.action_buttons ||| 0x01 }
  | .B => { j with action_buttons := j.action_buttons ||| 0x02 }
  | .Select => { j with action_buttons := j.action_buttons ||| 0x04 }
  | .Start => { j with action_buttons := j.action_buttons ||| 0x08 }

/-- `Joypad::read`: start from 0xFF and mask in the selected row
(action row if bit 5 of the select nibble is low, else direction row if
bit 4 is low). -/
def Joypad.read (j : Joypad) : Nat :=
  let result := 0xFF
  if j.select_buttons &&& 0x20 = 0 then
    result &&& (j.action_buttons ||| 0xF0)
  else if j.select_buttons &&& 0x10 = 0 then
    result &&& (j.direction_buttons ||| 0xF0)
  else
    result

/-- `Joypad::write`: only the two select bits are stored. -/
def Joypad.write (j : Joypad) (value : Nat) : Joypad :=
  { j with select_buttons := value &&& 0x30 }

/-! ## MMU (src/mmu.rs) -/

structure MMU where
  ram : Nat → Nat
  cart : Cart
  joypad : Joypad

def MMU.new (cart : Cart) (joypad : Joypad) : MMU :=
  { ram := fun a => if a = 0xFF00 then 0xCF else 0
    cart := cart
    joypad := joypad }

/-- `MMU::read_byte`.  Match arms in source order: 0xFF00 (joypad),
0xFF01 (serial dummy), 0x0000..=0x7FFF (cart ROM), everything else the
flat `ram` vector. -/
def MMU.read_byte (m : MMU) (addr : Nat) : Option Nat :=
  if addr = 0xFF00 then some m.joypad.read
  else if addr = 0xFF01 then some 0xFF
  else if addr ≤ 0x7FFF then m.cart.read_rom addr
  else some (m.ram addr)

/-- One iteration of the OAM DMA copy loop:
`ram[0xFE00 + i] = read_byte(source + i)`. -/
def MMU.oam_dma_step (source : Nat) (m : MMU) (i : Nat) : Option MMU := do
  let val ← m.read_byte (source + i)
  some { m with ram := fun a => if a = 0xFE00 + i then val else m.ram a }

/-- `MMU::oam_dma_transfer`: copy 160 bytes from `source_high << 8` into
OAM at 0xFE00. -/
def MMU.oam_dma_transfer (m : MMU) (source_high : Nat) : Option MMU :=
  (List.range 0xA0).foldlM (MMU.oam_dma_step ((source_high % 256) <<< 8)) m

/-- `MMU::write_byte`.  Match arms in source order.  Note that the first
two arms use Rust *exclusive* range patterns `0x0..0x1FFF` and
`0x2000..0x3FFF`, so 0x1FFF and 0x3FFF fall through to the
"ignore writes to ROM" arm. -/
def MMU.write_byte (m : MMU) (addr value : Nat) : Option MMU :=
  if addr < 0x1FFF then some { m with cart := m.cart.enable_ram value }
  else if 0x2000 ≤ addr ∧ addr < 0x3FFF then
    some { m with cart := m.cart.select_rom_bank value }
  else if addr = 0xFF00 then some { m with joypad := m.joypad.write value }
  else if addr = 0xFF46 then m.oam_dma_transfer value
  else if addr ≤ 0x7FFF then some m
  else some { m with ram := fun a => if a = addr then value else m.ram a }

/-- `MMU::read_short`: little-endian 16-bit read. -/
def MMU.read_short (m : MMU) (addr : Nat) : Option Nat := do
  let lo ← m.read_byte addr
  let hi ← m.read_byte ((addr + 1) % 0x10000)
  some (lo ||| (hi <<< 8))

/-- `MMU::write_short`: low byte first. -/
def MMU.write_short (m : MMU) (addr value : Nat) : Option MMU := do
  let m ← m.write_byte addr (value &&& 0xFF)
  m.write_byte ((addr + 1) % 0x10000) (value >>> 8)

/-! ## CPU register file and helpers (src/cpu.rs) -/

def CPU_CLOCK_SPEED : Nat := 4194304

def DIVIDER_CLOCK_SPEED : Nat := 16384

inductive FlagRegister
  | Zero | Sub | HalfCarry | Carry

/-- Discriminant values of the Rust `FlagRegister` enum. -/
def FlagRegister.toBit : FlagRegister → Nat
  | .Zero => 7
  | .Sub => 6
  | .HalfCarry => 5
  | .Carry => 4

inductive InterruptBit
  | VBlank | STAT | Timer | Serial | Joypad

/-- Discriminant values of the Rust `InterruptBit` enum. -/
def InterruptBit.toBit : InterruptBit → Nat
  | .VBlank => 0
  | .STAT => 1
  | .Timer => 2
  | .Serial => 3
  | .Joypad => 4

/-- Interrupt vector addresses (`InterruptSource`). -/
def InterruptBit.vector : InterruptBit → Nat
  | .VBlank => 0x40
  | .STAT => 0x48
  | .Timer => 0x50
  | .Serial => 0x58
  | .Joypad => 0x60

structure CPU where
  a : Nat
  f : Nat
  b : Nat
  c : Nat
  d : Nat
  e : Nat
  h : Nat
  l : Nat
  pc : Nat
  sp : Nat
  ime : Bool
  stopped : Bool
  halted : Bool
  div_cycles : Nat
  tima_cycles : Nat
  mmu : MMU

/-- `CPU::new`: the DMG boot-ROM exit state. -/
def CPU.new (mmu : MMU) : CPU :=
  { a := 0x01, f := 0xB0, b := 0x00, c := 0x13, d := 0x00, e := 0xD8
    h := 0x01, l := 0x4D, pc := 0x100, sp := 0xFFFE
    ime := false, stopped := false, halted := false
    div_cycles := 0, tima_cycles := 0, mmu := mmu }

def CPU.get_flag (cpu : CPU) (flag : FlagRegister) : Nat :=
  (cpu.f &&& (1 <<< flag.toBit)) >>> flag.toBit

/-- `CPU::set_flag`.  `!(1 << flag)` on a `u8` is `0xFF ^^^ (1 <<< flag)`. -/
def CPU.set_flag (cpu : CPU) (flag : FlagRegister) (value : Bool) : CPU :=
  if value then { cpu with f := cpu.f ||| (1 <<< flag.toBit) }
  else { cpu with f := cpu.f &&& (0xFF ^^^ (1 <<< flag.toBit)) }

/-! The `register_access!` macro: paired 16-bit getters and setters.
`set_xy` casts the low byte with `as u8` (`% 256`) and stores the high
byte from `value >> 8` cast to `u8`. -/

def CPU.get_af (cpu : CPU) : Nat := (cpu.a <<< 8) ||| cpu.f

def CPU.set_af (cpu : CPU) (value : Nat) : CPU :=
  { cpu with a := (value >>> 8) % 0x100, f := value % 0x100 }

def CPU.get_bc (cpu : CPU) : Nat := (cpu.b <<< 8) ||| cpu.c

def CPU.set_bc (cpu : CPU) (value : Nat) : CPU :=
  { cpu with b := (value >>> 8) % 0x100, c := value % 0x100 }

def CPU.get_de (cpu : CPU) : Nat := (cpu.d <<< 8) ||| cpu.e

def CPU.set_de (cpu : CPU) (value : Nat) : CPU :=
  { cpu with d := (value >>> 8) % 0x100, e := value % 0x100 }

def CPU.get_hl (cpu : CPU) : Nat := (cpu.h <<< 8) ||| cpu.l

def CPU.set_hl (cpu : CPU) (value : Nat) : CPU :=
  { cpu with h := (value >>> 8) % 0x100, l := value % 0x100 }

/-- `CPU::request_interrupt`: set the bit in IF (0xFF0F). -/
def CPU.request_interrupt (cpu : CPU) (interrupt_bit : InterruptBit) : Option CPU := do
  let interrupt_flag ← cpu.mmu.read_byte 0xFF0F
  let m ← cpu.mmu.write_byte 0xFF0F (interrupt_flag ||| (1 <<< interrupt_bit.toBit))
  some { cpu with mmu := m }

/-- `CPU::pop`: read a short at SP, then SP += 2 (wrapping). -/
def CPU.pop (cpu : CPU) : Option (Nat × CPU) := do
  let val ← cpu.mmu.read_short cpu.sp
  some (val, { cpu with sp := (cpu.sp + 2) % 0x10000 })

/-- `CPU::push`: SP -= 2 (wrapping), then write a short at SP. -/
def CPU.push (cpu : CPU) (value : Nat) : Option CPU := do
  let sp := (cpu.sp + 0x10000 - 2) % 0x10000
  let m ← cpu.mmu.write_short sp value
  some { cpu with sp := sp, mmu := m }

/-- `CPU::handle_interrupt`: if IME and the bit is pending and enabled,
clear IME, clear the IF bit, push PC and jump to the vector. -/
def CPU.handle_interrupt (cpu : CPU) (interrupt_flag interrupt_enable : Nat)
    (interrupt_bit : InterruptBit) : Option CPU :=
  if cpu.ime ∧ interrupt_flag &&& interrupt_enable &&& (1 <<< interrupt_bit.toBit) ≠ 0 then do
    let cpu := { cpu with ime := false }
    let new_interrupt_flag := interrupt_flag &&& (0xFF ^^^ (1 <<< interrupt_bit.toBit))
    let m ← cpu.mmu.write_byte 0xFF0F new_interrupt_flag
    let cpu ← CPU.push { cpu with mmu := m } cpu.pc
    some { cpu with pc := interrupt_bit.vector }
  else
    some cpu

/-- `CPU::check_interrupts`: try the five sources in priority order
(each re-checks IME, so only the first pending one is dispatched),
then clear `halted`. -/
def CPU.check_interrupts (cpu : CPU) : Option CPU := do
  let interrupt_flag ← cpu.mmu.read_byte 0xFF0F
  let interrupt_enable ← cpu.mmu.read_byte 0xFFFF
  if cpu.ime ∧ interrupt_flag &&& interrupt_enable ≠ 0 then do
    let cpu ← cpu.handle_interrupt interrupt_flag interrupt_enable .VBlank
    let cpu ← cpu.handle_interrupt interrupt_flag interrupt_enable .STAT
    let cpu ← cpu.handle_interrupt interrupt_flag interrupt_enable .Timer
    let cpu ← cpu.handle_interrupt interrupt_flag interrupt_enable .Serial
    let cpu ← cpu.handle_interrupt interrupt_flag interrupt_enable .Joypad
    some { cpu with halted := false }
  else
    some cpu

/-- `CPU::update_tima`.  (The source adds `instruction_cycles` a second
time in the not-yet-due branch; embedded as written.) -/
def CPU.update_tima (cpu : CPU) (instruction_cycles : Nat) : Option CPU := do
  let tima ← cpu.mmu.read_byte 0xFF05
  let tma ← cpu.mmu.read_byte 0xFF06
  let tac ← cpu.mmu.read_byte 0xFF07
  let clock_select := tac &&& 0b11
  let clock_freq : Nat :=
    if clock_select = 0b00 then 4096
    else if clock_select = 0b01 then 262144
    else if clock_select = 0b10 then 65536
    else 16384
  let timer_enabled := tac &&& 0b100 ≠ 0
  if timer_enabled then
    let increment_rate := CPU_CLOCK_SPEED / clock_freq
    let cpu := { cpu with tima_cycles := cpu.tima_cycles + instruction_cycles }
    if cpu.tima_cycles ≥ increment_rate then
      let cpu := { cpu with tima_cycles := cpu.tima_cycles - increment_rate }
      let new_tima := (tima + 1) % 0x100
      if new_tima = 0 then do
        let m ← cpu.mmu.write_byte 0xFF05 tma
        CPU.request_interrupt { cpu with mmu := m } .Timer
      else do
        let m ← cpu.mmu.write_byte 0xFF05 new_tima
        some { cpu with mmu := m }
    else
      some { cpu with tima_cycles := cpu.tima_cycles + instruction_cycles }
  else
    some cpu

/-- `CPU::update_div`: accumulate cycles (wrapping `u32` add); every 256
cycles increment DIV (0xFF04); the (possibly unchanged) DIV value is
written back unconditionally. -/
def CPU.update_div (cpu : CPU) (instruction_cycles : Nat) : Option CPU := do
  let div ← cpu.mmu.read_byte 0xFF04
  let cpu := { cpu with div_cycles := (cpu.div_cycles + instruction_cycles) % 0x100000000 }
  let due := cpu.div_cycles ≥ CPU_CLOCK_SPEED / DIVIDER_CLOCK_SPEED
  let div := if due then (div + 1) % 0x100 else div
  let cpu := if due then { cpu with div_cycles := cpu.div_cycles - CPU_CLOCK_SPEED / DIVIDER_CLOCK_SPEED } else cpu
  let m ← cpu.mmu.write_byte 0xFF04 div
  some { cpu with mmu := m }

def CPU.update_timers (cpu : CPU) (instruction_cycles : Nat) : Option CPU := do
  let cpu ← cpu.update_tima instruction_cycles
  cpu.update_div instruction_cycles

/-! ### ALU helpers (src/cpu.rs).  Helpers that in Rust return a `u8` and
mutate the flags are modelled as returning `Nat × CPU`. -/

/-- An `i8` value (given as its unsigned byte) cast `as u16`:
two's-complement sign extension. -/
def i8_as_u16 (v : Nat) : Nat :=
  if v % 0x100 < 0x80 then v % 0x100 else 0xFF00 + v % 0x100

def CPU.inc (cpu : CPU) (reg : Nat) : Nat × CPU :=
  let result := (reg + 1) % 0x100
  let cpu := cpu.set_flag .Zero (result == 0)
  let cpu := cpu.set_flag .Sub false
  let cpu := cpu.set_flag .HalfCarry ((result &&& 0x0F) == 0x00)
  (result, cpu)

def CPU.dec (cpu : CPU) (reg : Nat) : Nat × CPU :=
  let result := (reg + 0x100 - 1) % 0x100
  let cpu := cpu.set_flag .Zero (result == 0)
  let cpu := cpu.set_flag .Sub true
  let cpu := cpu.set_flag .HalfCarry ((result &&& 0x0F) == 0x0F)
  (result, cpu)

def CPU.rlca (cpu : CPU) : CPU :=
  let new_carry := cpu.a >>> 7
  let cpu := { cpu with a := ((cpu.a <<< 1) % 0x100) ||| new_carry }
  let cpu := cpu.set_flag .Zero false
  let cpu := cpu.set_flag .Sub false
  let cpu := cpu.set_flag .HalfCarry false
  cpu.set_flag .Carry (new_carry == 1)

def CPU.rrca (cpu : CPU) : CPU :=
  let new_carry := cpu.a &&& 1
  let cpu := { cpu with a := (cpu.a >>> 1) ||| ((new_carry <<< 7) % 0x100) }
  let cpu := cpu.set_flag .Zero false
  let cpu := cpu.set_flag .Sub false
  let cpu := cpu.set_flag .HalfCarry false
  cpu.set_flag .Carry (new_carry == 1)

def CPU.rla (cpu : CPU) : CPU :=
  let old_carry := cpu.get_flag .Carry
  let new_carry := cpu.a >>> 7
  let cpu := { cpu with a := ((cpu.a <<< 1) % 0x100) ||| old_carry }
  let cpu := cpu.set_flag .Zero false
  let cpu := cpu.set_flag .Sub false
  let cpu := cpu.set_flag .HalfCarry false
  cpu.set_flag .Carry (new_carry == 1)

def CPU.rra (cpu : CPU) : CPU :=
  let old_carry := cpu.get_flag .Carry
  let new_carry := cpu.a &&& 1
  let cpu := { cpu with a := (cpu.a >>> 1) ||| ((old_carry <<< 7) % 0x100) }
  let cpu := cpu.set_flag .Zero false
  let cpu := cpu.set_flag .Sub false
  let cpu := cpu.set_flag .HalfCarry false
  cpu.set_flag .Carry (new_carry == 1)

def CPU.rlc (cpu : CPU) (reg : Nat) : Nat × CPU :=
  let new_carry := reg >>> 7
  let result := ((reg <<< 1) % 0x100) ||| new_carry
  let cpu := cpu.set_flag .Zero (result == 0)
  let cpu := cpu.set_flag .Sub false
  let cpu := cpu.set_flag .HalfCarry false
  (result, cpu.set_flag .Carry (new_carry == 1))

def CPU.rrc (cpu : CPU) (reg : Nat) : Nat × CPU :=
  let new_carry := reg &&& 1
  let result := (reg >>> 1) ||| ((new_carry <<< 7) % 0x100)
  let cpu := cpu.set_flag .Zero (result == 0)
  let cpu := cpu.set_flag .Sub false
  let cpu := cpu.set_flag .HalfCarry false
  (result, cpu.set_flag .Carry (new_carry == 1))

def CPU.rl (cpu : CPU) (reg : Nat) : Nat × CPU :=
  let old_carry := cpu.get_flag .Carry
  let new_carry := reg >>> 7
  let result := ((reg <<< 1) % 0x100) ||| old_carry
  let cpu := cpu.set_flag .Zero (result == 0)
  let cpu := cpu.set_flag .Sub false
  let cpu := cpu.set_flag .HalfCarry false
  (result, cpu.set_flag .Carry (new_carry == 1))

def CPU.rr (cpu : CPU) (reg : Nat) : Nat × CPU :=
  let old_carry := cpu.get_flag .Carry
  let new_carry := reg &&& 1
  let result := (reg >>> 1) ||| ((old_carry <<< 7) % 0x100)
  let cpu := cpu.set_flag .Zero (result == 0)
  let cpu := cpu.set_flag .Sub false
  let cpu := cpu.set_flag .HalfCarry false
  (result, cpu.set_flag .Carry (new_carry == 1))

def CPU.sla (cpu : CPU) (reg : Nat) : Nat × CPU :=
  let new_carry := reg >>> 7
  let result := (reg <<< 1) % 0x100
  let cpu := cpu.set_flag .Zero (result == 0)
  let cpu := cpu.set_flag .Sub false
  let cpu := cpu.set_flag .HalfCarry false
  (result, cpu.set_flag .Carry (new_carry == 1))

def CPU.sra (cpu : CPU) (reg : Nat) : Nat × CPU :=
  let new_carry := reg &&& 0x80
  let result := (reg >>> 1) ||| new_carry
  let cpu := cpu.set_flag .Zero (result == 0)
  let cpu := cpu.set_flag .Sub false
  let cpu := cpu.set_flag .HalfCarry false
  (result, cpu.set_flag .Carry ((reg &&& 1) == 1))

def CPU.swap (cpu : CPU) (reg : Nat) : Nat × CPU :=
  let result := (reg >>> 4) ||| ((reg <<< 4) % 0x100)
  let cpu := cpu.set_flag .Zero (result == 0)
  let cpu := cpu.set_flag .Sub false
  let cpu := cpu.set_flag .HalfCarry false
  (result, cpu.set_flag .Carry false)

def CPU.add_a (cpu : CPU) (value : Nat) : CPU :=
  let result := (cpu.a + value) % 0x100
  let cpu := cpu.set_flag .Zero (result == 0)
  let cpu := cpu.set_flag .Sub false
  let cpu := cpu.set_flag .HalfCarry ((cpu.a &&& 0x0F) + (value &&& 0x0F) > 0x0F)
  let cpu := cpu.set_flag .Carry (cpu.a + value > 0xFF)
  { cpu with a := result }

def CPU.add_hl (cpu : CPU) (value : Nat) : CPU :=
  let result := (cpu.get_hl + value) % 0x10000
  let cpu := cpu.set_flag .Sub false
  let cpu := cpu.set_flag .HalfCarry ((cpu.get_hl &&& 0x0FFF) + (value &&& 0x0FFF) > 0x0FFF)
  let cpu := cpu.set_flag .Carry (cpu.get_hl + value > 0xFFFF)
  cpu.set_hl result

def CPU.adc (cpu : CPU) (value : Nat) : CPU :=
  let carry := cpu.get_flag .Carry
  let result := (cpu.a + value + carry) % 0x100
  let cpu := cpu.set_flag .Zero (result == 0)
  let cpu := cpu.set_flag .Sub false
  let cpu := cpu.set_flag .HalfCarry ((cpu.a &&& 0x0F) + (value &&& 0x0F) + carry > 0x0F)
  let cpu := cpu.set_flag .Carry (cpu.a + value + carry > 0xFF)
  { cpu with a := result }

def CPU.sub (cpu : CPU) (value : Nat) : CPU :=
  let result := (cpu.a + 0x100 - value) % 0x100
  let cpu := cpu.set_flag .Zero (result == 0)
  let cpu := cpu.set_flag .Sub true
  let cpu := cpu.set_flag .HalfCarry ((cpu.a &&& 0x0F) < (value &&& 0x0F))
  let cpu := cpu.set_flag .Carry (cpu.a < value)
  { cpu with a := result }

/-- `CPU::add_signed` (ADD SP, e8): the argument is the operand byte,
sign-extended with `as u16` at each use site. -/
def CPU.add_signed (cpu : CPU) (value : Nat) : CPU :=
  let result := (cpu.sp + i8_as_u16 value) % 0x10000
  let cpu := cpu.set_flag .Zero false
  let cpu := cpu.set_flag .Sub false
  let cpu := cpu.set_flag .HalfCarry ((cpu.sp &&& 0x0F) + (i8_as_u16 value &&& 0x0F) > 0x0F)
  let cpu := cpu.set_flag .Carry ((cpu.sp &&& 0xFF) + (i8_as_u16 value &&& 0xFF) > 0xFF)
  { cpu with sp := result }

def CPU.sbc (cpu : CPU) (value : Nat) : CPU :=
  let carry := cpu.get_flag .Carry
  let result := ((cpu.a + 0x100 - value) % 0x100 + 0x100 - carry) % 0x100
  let cpu := cpu.set_flag .Zero (result == 0)
  let cpu := cpu.set_flag .Sub true
  let cpu := cpu.set_flag .HalfCarry ((cpu.a &&& 0x0F) < (value &&& 0x0F) + carry)
  let cpu := cpu.set_flag .Carry (cpu.a < value + carry)
  { cpu with a := result }

def CPU.srl (cpu : CPU) (value : Nat) : Nat × CPU :=
  let carry := value &&& 1
  let result := value >>> 1
  let cpu := cpu.set_flag .Zero (result == 0)
  let cpu := cpu.set_flag .Sub false
  let cpu := cpu.set_flag .HalfCarry false
  (result, cpu.set_flag .Carry (carry == 1))

def CPU.bit (cpu : CPU) (b value : Nat) : CPU :=
  let cpu := cpu.set_flag .Zero ((value &&& (1 <<< b)) == 0)
  let cpu := cpu.set_flag .Sub false
  cpu.set_flag .HalfCarry true

/-- `CPU::res`: clear bit `b` (`!(1 << bit)` on `u8`). -/
def CPU.res (_ : CPU) (b value : Nat) : Nat :=
  value &&& (0xFF ^^^ (1 <<< b))

/-- `CPU::set`: set bit `b`. -/
def CPU.set (_ : CPU) (b value : Nat) : Nat :=
  value ||| (1 <<< b)

def CPU.and (cpu : CPU) (value : Nat) : CPU :=
  let cpu := { cpu with a := cpu.a &&& value }
  let cpu := cpu.set_flag .Zero (cpu.a == 0)
  let cpu := cpu.set_flag .Sub false
  let cpu := cpu.set_flag .HalfCarry true
  cpu.set_flag .Carry false

def CPU.xor (cpu : CPU) (value : Nat) : CPU :=
  let cpu := { cpu with a := cpu.a ^^^ value }
  let cpu := cpu.set_flag .Zero (cpu.a == 0)
  let cpu := cpu.set_flag .Sub false
  let cpu := cpu.set_flag .HalfCarry false
  cpu.set_flag .Carry false

def CPU.or (cpu : CPU) (value : Nat) : CPU :=
  let cpu := { cpu with a := cpu.a ||| value }
  let cpu := cpu.set_flag .Zero (cpu.a == 0)
  let cpu := cpu.set_flag .Sub false
  let cpu := cpu.set_flag .HalfCarry false
  cpu.set_flag .Carry false

def CPU.cp (cpu : CPU) (value : Nat) : CPU :=
  let cpu := cpu.set_flag .Zero (cpu.a == value)
  let cpu := cpu.set_flag .Sub true
  let cpu := cpu.set_flag .HalfCarry ((cpu.a &&& 0x0F) < (value &&& 0x0F))
  cpu.set_flag .Carry (cpu.a < value)

/-- `CPU::daa`: BCD adjust after ADD/SUB, driven by N, H, C. -/
def CPU.daa (cpu : CPU) : CPU :=
  let half_carry := cpu.get_flag .HalfCarry
  let carry := cpu.get_flag .Carry
  let subtract := cpu.get_flag .Sub
  let offset : Nat := 0
  let offset := if (subtract = 0 ∧ cpu.a &&& 0xF > 0x09) ∨ half_carry = 1 then offset ||| 0x06 else offset
  let should_carry := (subtract = 0 ∧ cpu.a > 0x99) ∨ carry = 1
  let offset := if should_carry then offset ||| 0x60 else offset
  let cpu := { cpu with a := if subtract = 0 then (cpu.a + offset) % 0x100
                             else (cpu.a + 0x100 - offset) % 0x100 }
  let cpu := cpu.set_flag .Zero (cpu.a == 0)
  let cpu := cpu.set_flag .HalfCarry false
  cpu.set_flag .Carry should_carry

def CPU.cpl (cpu : CPU) : CPU :=
  let cpu := { cpu with a := cpu.a ^^^ 0xFF }
  let cpu := cpu.set_flag .Sub true
  cpu.set_flag .HalfCarry true

/-! ## Opcode dispatch (src/cpu.rs `execute` / `execute_cb`) -/

/-- Modelled from the spec: the 256-entry `OPCODES` table lives in
src/consts.rs, which is not among the provided sources; only its `bytes`
column is consumed by `CPU::execute`.  Spec §4.3: PC advances by the
opcode's declared byte length, i.e. 1 plus the size of the immediate
operand (d8/e8 ⇒ 2, d16/a16 ⇒ 3; STOP is the 2-byte `STOP 0`). -/
def opcode_bytes (opcode : Nat) : Nat :=
  if opcode ∈ [0x01, 0x08, 0x11, 0x21, 0x31, 0xC2, 0xC3, 0xC4, 0xCA, 0xCC,
               0xCD, 0xD2, 0xD4, 0xDA, 0xDC, 0xEA, 0xFA] then 3
  else if opcode ∈ [0x06, 0x0E, 0x10, 0x16, 0x18, 0x1E, 0x20, 0x26, 0x28,
                    0x2E, 0x30, 0x36, 0x38, 0x3E, 0xC6, 0xCE, 0xD6, 0xDE,
                    0xE0, 0xE6, 0xE8, 0xEE, 0xF0, 0xF6, 0xF8, 0xFE] then 2
  else 1

/-- Modelled from the spec: the `bytes` column of the `CB_OPCODES` table
(src/consts.rs, not among the provided sources).  Spec §4.3: every
CB-prefixed instruction is 2 bytes. -/
def cb_opcode_bytes (_ : Nat) : Nat := 2

set_option maxHeartbeats 4000000 in
/-- `CPU::execute_cb`: the CB-prefixed bit/shift/rotate table.
The `u8` opcode is total in Rust; the final wildcard only covers
model values outside the byte range. -/
def CPU.execute_cb (cpu : CPU) (opcode : Nat) : Option (CPU × Nat) :=
  match opcode with
  | 0x00 => let r := cpu.rlc cpu.b; some ({ r.2 with b := r.1 }, 8)
  | 0x01 => let r := cpu.rlc cpu.c; some ({ r.2 with c := r.1 }, 8)
  | 0x02 => let r := cpu.rlc cpu.d; some ({ r.2 with d := r.1 }, 8)
  | 0x03 => let r := cpu.rlc cpu.e; some ({ r.2 with e := r.1 }, 8)
  | 0x04 => let r := cpu.rlc cpu.h; some ({ r.2 with h := r.1 }, 8)
  | 0x05 => let r := cpu.rlc cpu.l; some ({ r.2 with l := r.1 }, 8)
  | 0x06 => do
    let temp ← cpu.mmu.read_byte cpu.get_hl
    let r := cpu.rlc temp
    let m ← cpu.mmu.write_byte cpu.get_hl r.1
    some ({ r.2 with mmu := m }, 16)
  | 0x07 => let r := cpu.rlc cpu.a; some ({ r.2 with a := r.1 }, 8)
  | 0x08 => let r := cpu.rrc cpu.b; some ({ r.2 with b := r.1 }, 8)
  | 0x09 => let r := cpu.rrc cpu.c; some ({ r.2 with c := r.1 }, 8)
  | 0x0A => let r := cpu.rrc cpu.d; some ({ r.2 with d := r.1 }, 8)
  | 0x0B => let r := cpu.rrc cpu.e; some ({ r.2 with e := r.1 }, 8)
  | 0x0C => let r := cpu.rrc cpu.h; some ({ r.2 with h := r.1 }, 8)
  | 0x0D => let r := cpu.rrc cpu.l; some ({ r.2 with l := r.1 }, 8)
  | 0x0E => do
    let temp ← cpu.mmu.read_byte cpu.get_hl
    let r := cpu.rrc temp
    let m ← cpu.mmu.write_byte cpu.get_hl r.1
    some ({ r.2 with mmu := m }, 16)
  | 0x0F => let r := cpu.rrc cpu.a; some ({ r.2 with a := r.1 }, 8)
  | 0x10 => let r := cpu.rl cpu.b; some ({ r.2 with b := r.1 }, 8)
  | 0x11 => let r := cpu.rl cpu.c; some ({ r.2 with c := r.1 }, 8)
  | 0x12 => let r := cpu.rl cpu.d; some ({ r.2 with d := r.1 }, 8)
  | 0x13 => let r := cpu.rl cpu.e; some ({ r.2 with e := r.1 }, 8)
  | 0x14 => let r := cpu.rl cpu.h; some ({ r.2 with h := r.1 }, 8)
  | 0x15 => let r := cpu.rl cpu.l; some ({ r.2 with l := r.1 }, 8)
  | 0x16 => do
    let temp ← cpu.mmu.read_byte cpu.get_hl
    let r := cpu.rl temp
    let m ← cpu.mmu.write_byte cpu.get_hl r.1
    some ({ r.2 with mmu := m }, 16)
  | 0x17 => let r := cpu.rl cpu.a; some ({ r.2 with a := r.1 }, 8)
  | 0x18 => let r := cpu.rr cpu.b; some ({ r.2 with b := r.1 }, 8)
  | 0x19 => let r := cpu.rr cpu.c; some ({ r.2 with c := r.1 }, 8)
  | 0x1A => let r := cpu.rr cpu.d; some ({ r.2 with d := r.1 }, 8)
  | 0x1B => let r := cpu.rr cpu.e; some ({ r.2 with e := r.1 }, 8)
  | 0x1C => let r := cpu.rr cpu.h; some ({ r.2 with h := r.1 }, 8)
  | 0x1D => let r := cpu.rr cpu.l; some ({ r.2 with l := r.1 }, 8)
  | 0x1E => do
    let temp ← cpu.mmu.read_byte cpu.get_hl
    let r := cpu.rr temp
    let m ← cpu.mmu.write_byte cpu.get_hl r.1
    some ({ r.2 with mmu := m }, 16)
  | 0x1F => let r := cpu.rr cpu.a; some ({ r.2 with a := r.1 }, 8)
  | 0x20 => let r := cpu.sla cpu.b; some ({ r.2 with b := r.1 }, 8)
  | 0x21 => let r := cpu.sla cpu.c; some ({ r.2 with c := r.1 }, 8)
  | 0x22 => let r := cpu.sla cpu.d; some ({ r.2 with d := r.1 }, 8)
  | 0x23 => let r := cpu.sla cpu.e; some ({ r.2 with e := r.1 }, 8)
  | 0x24 => let r := cpu.sla cpu.h; some ({ r.2 with h := r.1 }, 8)
  | 0x25 => let r := cpu.sla cpu.l; some ({ r.2 with l := r.1 }, 8)
  | 0x26 => do
    let temp ← cpu.mmu.read_byte cpu.get_hl
    let r := cpu.sla temp
    let m ← cpu.mmu.write_byte cpu.get_hl r.1
    some ({ r.2 with mmu := m }, 16)
  | 0x27 => let r := cpu.sla cpu.a; some ({ r.2 with a := r.1 }, 8)
  | 0x28 => let r := cpu.sra cpu.b; some ({ r.2 with b := r.1 }, 8)
  | 0x29 => let r := cpu.sra cpu.c; some ({ r.2 with c := r.1 }, 8)
  | 0x2A => let r := cpu.sra cpu.d; some ({ r.2 with d := r.1 }, 8)
  | 0x2B => let r := cpu.sra cpu.e; some ({ r.2 with e := r.1 }, 8)
  | 0x2C => let r := cpu.sra cpu.h; some ({ r.2 with h := r.1 }, 8)
  | 0x2D => let r := cpu.sra cpu.l; some ({ r.2 with l := r.1 }, 8)
  | 0x2E => do
    let temp ← cpu.mmu.read_byte cpu.get_hl
    let r := cpu.sra temp
    let m ← cpu.mmu.write_byte cpu.get_hl r.1
    some ({ r.2 with mmu := m }, 16)
  | 0x2F => let r := cpu.sra cpu.a; some ({ r.2 with a := r.1 }, 8)
  | 0x30 => let r := cpu.swap cpu.b; some ({ r.2 with b := r.1 }, 8)
  | 0x31 => let r := cpu.swap cpu.c; some ({ r.2 with c := r.1 }, 8)
  | 0x32 => let r := cpu.swap cpu.d; some ({ r.2 with d := r.1 }, 8)
  | 0x33 => let r := cpu.swap cpu.e; some ({ r.2 with e := r.1 }, 8)
  | 0x34 => let r := cpu.swap cpu.h; some ({ r.2 with h := r.1 }, 8)
  | 0x35 => let r := cpu.swap cpu.l; some ({ r.2 with l := r.1 }, 8)
  | 0x36 => do
    let temp ← cpu.mmu.read_byte cpu.get_hl
    let r := cpu.swap temp
    let m ← cpu.mmu.write_byte cpu.get_hl r.1
    some ({ r.2 with mmu := m }, 16)
  | 0x37 => let r := cpu.swap cpu.a; some ({ r.2 with a := r.1 }, 8)
  | 0x38 => let r := cpu.srl cpu.b; some ({ r.2 with b := r.1 }, 8)
  | 0x39 => let r := cpu.srl cpu.c; some ({ r.2 with c := r.1 }, 8)
  | 0x3A => let r := cpu.srl cpu.d; some ({ r.2 with d := r.1 }, 8)
  | 0x3B => let r := cpu.srl cpu.e; some ({ r.2 with e := r.1 }, 8)
  | 0x3C => let r := cpu.srl cpu.h; some ({ r.2 with h := r.1 }, 8)
  | 0x3D => let r := cpu.srl cpu.l; some ({ r.2 with l := r.1 }, 8)
  | 0x3E => do
    let temp ← cpu.mmu.read_byte cpu.get_hl
    let r := cpu.srl temp
    let m ← cpu.mmu.write_byte cpu.get_hl r.1
    some ({ r.2 with mmu := m }, 16)
  | 0x3F => let r := cpu.srl cpu.a; some ({ r.2 with a := r.1 }, 8)
  | 0x40 => some (cpu.bit 0 cpu.b, 8)
  | 0x41 => some (cpu.bit 0 cpu.c, 8)
  | 0x42 => some (cpu.bit 0 cpu.d, 8)
  | 0x43 => some (cpu.bit 0 cpu.e, 8)
  | 0x44 => some (cpu.bit 0 cpu.h, 8)
  | 0x45 => some (cpu.bit 0 cpu.l, 8)
  | 0x46 => do
    let temp ← cpu.mmu.read_byte cpu.get_hl
    some (cpu.bit 0 temp, 12)
  | 0x47 => some (cpu.bit 0 cpu.a, 8)
  | 0x48 => some (cpu.bit 1 cpu.b, 8)
  | 0x49 => some (cpu.bit 1 cpu.c, 8)
  | 0x4A => some (cpu.bit 1 cpu.d, 8)
  | 0x4B => some (cpu.bit 1 cpu.e, 8)
  | 0x4C => some (cpu.bit 1 cpu.h, 8)
  | 0x4D => some (cpu.bit 1 cpu.l, 8)
  | 0x4E => do
    let temp ← cpu.mmu.read_byte cpu.get_hl
    some (cpu.bit 1 temp, 12)
  | 0x4F => some (cpu.bit 1 cpu.a, 8)
  | 0x50 => some (cpu.bit 2 cpu.b, 8)
  | 0x51 => some (cpu.bit 2 cpu.c, 8)
  | 0x52 => some (cpu.bit 2 cpu.d, 8)
  | 0x53 => some (cpu.bit 2 cpu.e, 8)
  | 0x54 => some (cpu.bit 2 cpu.h, 8)
  | 0x55 => some (cpu.bit 2 cpu.l, 8)
  | 0x56 => do
    let temp ← cpu.mmu.read_byte cpu.get_hl
    some (cpu.bit 2 temp, 12)
  | 0x57 => some (cpu.bit 2 cpu.a, 8)
  | 0x58 => some (cpu.bit 3 cpu.b, 8)
  | 0x59 => some (cpu.bit 3 cpu.c, 8)
  | 0x5A => some (cpu.bit 3 cpu.d, 8)
  | 0x5B => some (cpu.bit 3 cpu.e, 8)
  | 0x5C => some (cpu.bit 3 cpu.h, 8)
  | 0x5D => some (cpu.bit 3 cpu.l, 8)
  | 0x5E => do
    let temp ← cpu.mmu.read_byte cpu.get_hl
    some (cpu.bit 3 temp, 12)
  | 0x5F => some (cpu.bit 3 cpu.a, 8)
  | 0x60 => some (cpu.bit 4 cpu.b, 8)
  | 0x61 => some (cpu.bit 4 cpu.c, 8)
  | 0x62 => some (cpu.bit 4 cpu.d, 8)
  | 0x63 => some (cpu.bit 4 cpu.e, 8)
  | 0x64 => some (cpu.bit 4 cpu.h, 8)
  | 0x65 => some (cpu.bit 4 cpu.l, 8)
  | 0x66 => do
    let temp ← cpu.mmu.read_byte cpu.get_hl
    some (cpu.bit 4 temp, 12)
  | 0x67 => some (cpu.bit 4 cpu.a, 8)
  | 0x68 => some (cpu.bit 5 cpu.b, 8)
  | 0x69 => some (cpu.bit 5 cpu.c, 8)
  | 0x6A => some (cpu.bit 5 cpu.d, 8)
  | 0x6B => some (cpu.bit 5 cpu.e, 8)
  | 0x6C => some (cpu.bit 5 cpu.h, 8)
  | 0x6D => some (cpu.bit 5 cpu.l, 8)
  | 0x6E => do
    let temp ← cpu.mmu.read_byte cpu.get_hl
    some (cpu.bit 5 temp, 12)
  | 0x6F => some (cpu.bit 5 cpu.a, 8)
  | 0x70 => some (cpu.bit 6 cpu.b, 8)
  | 0x71 => some (cpu.bit 6 cpu.c, 8)
  | 0x72 => some (cpu.bit 6 cpu.d, 8)
  | 0x73 => some (cpu.bit 6 cpu.e, 8)
  | 0x74 => some (cpu.bit 6 cpu.h, 8)
  | 0x75 => some (cpu.bit 6 cpu.l, 8)
  | 0x76 => do
    let temp ← cpu.mmu.read_byte cpu.get_hl
    some (cpu.bit 6 temp, 12)
  | 0x77 => some (cpu.bit 6 cpu.a, 8)
  | 0x78 => some (cpu.bit 7 cpu.b, 8)
  | 0x79 => some (cpu.bit 7 cpu.c, 8)
  | 0x7A => some (cpu.bit 7 cpu.d, 8)
  | 0x7B => some (cpu.bit 7 cpu.e, 8)
  | 0x7C => some (cpu.bit 7 cpu.h, 8)
  | 0x7D => some (cpu.bit 7 cpu.l, 8)
  | 0x7E => do
    let temp ← cpu.mmu.read_byte cpu.get_hl
    some (cpu.bit 7 temp, 12)
  | 0x7F => some (cpu.bit 7 cpu.a, 8)
  | 0x80 => some ({ cpu with b := cpu.res 0 cpu.b }, 8)
  | 0x81 => some ({ cpu with c := cpu.res 0 cpu.c }, 8)
  | 0x82 => some ({ cpu with d := cpu.res 0 cpu.d }, 8)
  | 0x83 => some ({ cpu with e := cpu.res 0 cpu.e }, 8)
  | 0x84 => some ({ cpu with h := cpu.res 0 cpu.h }, 8)
  | 0x85 => some ({ cpu with l := cpu.res 0 cpu.l }, 8)
  | 0x86 => do
    let temp ← cpu.mmu.read_byte cpu.get_hl
    let m ← cpu.mmu.write_byte cpu.get_hl (cpu.res 0 temp)
    some ({ cpu with mmu := m }, 16)
  | 0x87 => some ({ cpu with a := cpu.res 0 cpu.a }, 8)
  | 0x88 => some ({ cpu with b := cpu.res 1 cpu.b }, 8)
  | 0x89 => some ({ cpu with c := cpu.res 1 cpu.c }, 8)
  | 0x8A => some ({ cpu with d := cpu.res 1 cpu.d }, 8)
  | 0x8B => some ({ cpu with e := cpu.res 1 cpu.e }, 8)
  | 0x8C => some ({ cpu with h := cpu.res 1 cpu.h }, 8)
  | 0x8D => some ({ cpu with l := cpu.res 1 cpu.l }, 8)
  | 0x8E => do
    let temp ← cpu.mmu.read_byte cpu.get_hl
    let m ← cpu.mmu.write_byte cpu.get_hl (cpu.res 1 temp)
    some ({ cpu with mmu := m }, 16)
  | 0x8F => some ({ cpu with a := cpu.res 1 cpu.a }, 8)
  | 0x90 => some ({ cpu with b := cpu.res 2 cpu.b }, 8)
  | 0x91 => some ({ cpu with c := cpu.res 2 cpu.c }, 8)
  | 0x92 => some ({ cpu with d := cpu.res 2 cpu.d }, 8)
  | 0x93 => some ({ cpu with e := cpu.res 2 cpu.e }, 8)
  | 0x94 => some ({ cpu with h := cpu.res 2 cpu.h }, 8)
  | 0x95 => some ({ cpu with l := cpu.res 2 cpu.l }, 8)
  | 0x96 => do
    let temp ← cpu.mmu.read_byte cpu.get_hl
    let m ← cpu.mmu.write_byte cpu.get_hl (cpu.res 2 temp)
    some ({ cpu with mmu := m }, 16)
  | 0x97 => some ({ cpu with a := cpu.res 2 cpu.a }, 8)
  | 0x98 => some ({ cpu with b := cpu.res 3 cpu.b }, 8)
  | 0x99 => some ({ cpu with c := cpu.res 3 cpu.c }, 8)
  | 0x9A => some ({ cpu with d := cpu.res 3 cpu.d }, 8)
  | 0x9B => some ({ cpu with e := cpu.res 3 cpu.e }, 8)
  | 0x9C => some ({ cpu with h := cpu.res 3 cpu.h }, 8)
  | 0x9D => some ({ cpu with l := cpu.res 3 cpu.l }, 8)
  | 0x9E => do
    let temp ← cpu.mmu.read_byte cpu.get_hl
    let m ← cpu.mmu.write_byte cpu.get_hl (cpu.res 3 temp)
    some ({ cpu with mmu := m }, 16)
  | 0x9F => some ({ cpu with a := cpu.res 3 cpu.a }, 8)
  | 0xA0 => some ({ cpu with b := cpu.res 4 cpu.b }, 8)
  | 0xA1 => some ({ cpu with c := cpu.res 4 cpu.c }, 8)
  | 0xA2 => some ({ cpu with d := cpu.res 4 cpu.d }, 8)
  | 0xA3 => some ({ cpu with e := cpu.res 4 cpu.e }, 8)
  | 0xA4 => some ({ cpu with h := cpu.res 4 cpu.h }, 8)
  | 0xA5 => some ({ cpu with l := cpu.res 4 cpu.l }, 8)
  | 0xA6 => do
    let temp ← cpu.mmu.read_byte cpu.get_hl
    let m ← cpu.mmu.write_byte cpu.get_hl (cpu.res 4 temp)
    some ({ cpu with mmu := m }, 16)
  | 0xA7 => some ({ cpu with a := cpu.res 4 cpu.a }, 8)
  | 0xA8 => some ({ cpu with b := cpu.res 5 cpu.b }, 8)
  | 0xA9 => some ({ cpu with c := cpu.res 5 cpu.c }, 8)
  | 0xAA => some ({ cpu with d := cpu.res 5 cpu.d }, 8)
  | 0xAB => some ({ cpu with e := cpu.res 5 cpu.e }, 8)
  | 0xAC => some ({ cpu with h := cpu.res 5 cpu.h }, 8)
  | 0xAD => some ({ cpu with l := cpu.res 5 cpu.l }, 8)
  | 0xAE => do
    let temp ← cpu.mmu.read_byte cpu.get_hl
    let m ← cpu.mmu.write_byte cpu.get_hl (cpu.res 5 temp)
    some ({ cpu with mmu := m }, 16)
  | 0xAF => some ({ cpu with a := cpu.res 5 cpu.a }, 8)
  | 0xB0 => some ({ cpu with b := cpu.res 6 cpu.b }, 8)
  | 0xB1 => some ({ cpu with c := cpu.res 6 cpu.c }, 8)
  | 0xB2 => some ({ cpu with d := cpu.res 6 cpu.d }, 8)
  | 0xB3 => some ({ cpu with e := cpu.res 6 cpu.e }, 8)
  | 0xB4 => some ({ cpu with h := cpu.res 6 cpu.h }, 8)
  | 0xB5 => some ({ cpu with l := cpu.res 6 cpu.l }, 8)
  | 0xB6 => do
    let temp ← cpu.mmu.read_byte cpu.get_hl
    let m ← cpu.mmu.write_byte cpu.get_hl (cpu.res 6 temp)
    some ({ cpu with mmu := m }, 16)
  | 0xB7 => some ({ cpu with a := cpu.res 6 cpu.a }, 8)
  | 0xB8 => some ({ cpu with b := cpu.res 7 cpu.b }, 8)
  | 0xB9 => some ({ cpu with c := cpu.res 7 cpu.c }, 8)
  | 0xBA => some ({ cpu with d := cpu.res 7 cpu.d }, 8)
  | 0xBB => some ({ cpu with e := cpu.res 7 cpu.e }, 8)
  | 0xBC => some ({ cpu with h := cpu.res 7 cpu.h }, 8)
  | 0xBD => some ({ cpu with l := cpu.res 7 cpu.l }, 8)
  | 0xBE => do
    let temp ← cpu.mmu.read_byte cpu.get_hl
    let m ← cpu.mmu.write_byte cpu.get_hl (cpu.res 7 temp)
    some ({ cpu with mmu := m }, 16)
  | 0xBF => some ({ cpu with a := cpu.res 7 cpu.a }, 8)
  | 0xC0 => some ({ cpu with b := cpu.set 0 cpu.b }, 8)
  | 0xC1 => some ({ cpu with c := cpu.set 0 cpu.c }, 8)
  | 0xC2 => some ({ cpu with d := cpu.set 0 cpu.d }, 8)
  | 0xC3 => some ({ cpu with e := cpu.set 0 cpu.e }, 8)
  | 0xC4 => some ({ cpu with h := cpu.set 0 cpu.h }, 8)
  | 0xC5 => some ({ cpu with l := cpu.set 0 cpu.l }, 8)
  | 0xC6 => do
    let temp ← cpu.mmu.read_byte cpu.get_hl
    let m ← cpu.mmu.write_byte cpu.get_hl (cpu.set 0 temp)
    some ({ cpu with mmu := m }, 16)
  | 0xC7 => some ({ cpu with a := cpu.set 0 cpu.a }, 8)
  | 0xC8 => some ({ cpu with b := cpu.set 1 cpu.b }, 8)
  | 0xC9 => some ({ cpu with c := cpu.set 1 cpu.c }, 8)
  | 0xCA => some ({ cpu with d := cpu.set 1 cpu.d }, 8)
  | 0xCB => some ({ cpu with e := cpu.set 1 cpu.e }, 8)
  | 0xCC => some ({ cpu with h := cpu.set 1 cpu.h }, 8)
  | 0xCD => some ({ cpu with l := cpu.set 1 cpu.l }, 8)
  | 0xCE => do
    let temp ← cpu.mmu.read_byte cpu.get_hl
    let m ← cpu.mmu.write_byte cpu.get_hl (cpu.set 1 temp)
    some ({ cpu with mmu := m }, 16)
  | 0xCF => some ({ cpu with a := cpu.set 1 cpu.a }, 8)
  | 0xD0 => some ({ cpu with b := cpu.set 2 cpu.b }, 8)
  | 0xD1 => some ({ cpu with c := cpu.set 2 cpu.c }, 8)
  | 0xD2 => some ({ cpu with d := cpu.set 2 cpu.d }, 8)
  | 0xD3 => some ({ cpu with e := cpu.set 2 cpu.e }, 8)
  | 0xD4 => some ({ cpu with h := cpu.set 2 cpu.h }, 8)
  | 0xD5 => some ({ cpu with l := cpu.set 2 cpu.l }, 8)
  | 0xD6 => do
    let temp ← cpu.mmu.read_byte cpu.get_hl
    let m ← cpu.mmu.write_byte cpu.get_hl (cpu.set 2 temp)
    some ({ cpu with mmu := m }, 16)
  | 0xD7 => some ({ cpu with a := cpu.set 2 cpu.a }, 8)
  | 0xD8 => some ({ cpu with b := cpu.set 3 cpu.b }, 8)
  | 0xD9 => some ({ cpu with c := cpu.set 3 cpu.c }, 8)
  | 0xDA => some ({ cpu with d := cpu.set 3 cpu.d }, 8)
  | 0xDB => some ({ cpu with e := cpu.set 3 cpu.e }, 8)
  | 0xDC => some ({ cpu with h := cpu.set 3 cpu.h }, 8)
  | 0xDD => some ({ cpu with l := cpu.set 3 cpu.l }, 8)
  | 0xDE => do
    let temp ← cpu.mmu.read_byte cpu.get_hl
    let m ← cpu.mmu.write_byte cpu.get_hl (cpu.set 3 temp)
    some ({ cpu with mmu := m }, 16)
  | 0xDF => some ({ cpu with a := cpu.set 3 cpu.a }, 8)
  | 0xE0 => some ({ cpu with b := cpu.set 4 cpu.b }, 8)
  | 0xE1 => some ({ cpu with c := cpu.set 4 cpu.c }, 8)
  | 0xE2 => some ({ cpu with d := cpu.set 4 cpu.d }, 8)
  | 0xE3 => some ({ cpu with e := cpu.set 4 cpu.e }, 8)
  | 0xE4 => some ({ cpu with h := cpu.set 4 cpu.h }, 8)
  | 0xE5 => some ({ cpu with l := cpu.set 4 cpu.l }, 8)
  | 0xE6 => do
    let temp ← cpu.mmu.read_byte cpu.get_hl
    let m ← cpu.mmu.write_byte cpu.get_hl (cpu.set 4 temp)
    some ({ cpu with mmu := m }, 16)
  | 0xE7 => some ({ cpu with a := cpu.set 4 cpu.a }, 8)
  | 0xE8 => some ({ cpu with b := cpu.set 5 cpu.b }, 8)
  | 0xE9 => some ({ cpu with c := cpu.set 5 cpu.c }, 8)
  | 0xEA => some ({ cpu with d := cpu.set 5 cpu.d }, 8)
  | 0xEB => some ({ cpu with e := cpu.set 5 cpu.e }, 8)
  | 0xEC => some ({ cpu with h := cpu.set 5 cpu.h }, 8)
  | 0xED => some ({ cpu with l := cpu.set 5 cpu.l }, 8)
  | 0xEE => do
    let temp ← cpu.mmu.read_byte cpu.get_hl
    let m ← cpu.mmu.write_byte cpu.get_hl (cpu.set 5 temp)
    some ({ cpu with mmu := m }, 16)
  | 0xEF => some ({ cpu with a := cpu.set 5 cpu.a }, 8)
  | 0xF0 => some ({ cpu with b := cpu.set 6 cpu.b }, 8)
  | 0xF1 => some ({ cpu with c := cpu.set 6 cpu.c }, 8)
  | 0xF2 => some ({ cpu with d := cpu.set 6 cpu.d }, 8)
  | 0xF3 => some ({ cpu with e := cpu.set 6 cpu.e }, 8)
  | 0xF4 => some ({ cpu with h := cpu.set 6 cpu.h }, 8)
  | 0xF5 => some ({ cpu with l := cpu.set 6 cpu.l }, 8)
  | 0xF6 => do
    let temp ← cpu.mmu.read_byte cpu.get_hl
    let m ← cpu.mmu.write_byte cpu.get_hl (cpu.set 6 temp)
    some ({ cpu with mmu := m }, 16)
  | 0xF7 => some ({ cpu with a := cpu.set 6 cpu.a }, 8)
  | 0xF8 => some ({ cpu with b := cpu.set 7 cpu.b }, 8)
  | 0xF9 => some ({ cpu with c := cpu.set 7 cpu.c }, 8)
  | 0xFA => some ({ cpu with d := cpu.set 7 cpu.d }, 8)
  | 0xFB => some ({ cpu with e := cpu.set 7 cpu.e }, 8)
  | 0xFC => some ({ cpu with h := cpu.set 7 cpu.h }, 8)
  | 0xFD => some ({ cpu with l := cpu.set 7 cpu.l }, 8)
  | 0xFE => do
    let temp ← cpu.mmu.read_byte cpu.get_hl
    let m ← cpu.mmu.write_byte cpu.get_hl (cpu.set 7 temp)
    some ({ cpu with mmu := m }, 16)
  | 0xFF => some ({ cpu with a := cpu.set 7 cpu.a }, 8)
  | _ => none


set_option maxHeartbeats 4000000 in
/-- `CPU::execute`: one instruction step.  If halted, possibly wake up and
consume 4 cycles; otherwise fetch the 8/16-bit operands at PC+1, advance
PC by the opcode's byte count, then dispatch.  `none` models a panic
(`unreachable!()` for the undefined opcodes, or an out-of-bounds ROM
read). -/
def CPU.execute (cpu : CPU) (opcode : Nat) : Option (CPU × Nat) :=
  if cpu.halted then do
    let interrupt_flag ← cpu.mmu.read_byte 0xFF0F
    let interrupt_enable ← cpu.mmu.read_byte 0xFFFF
    let cpu := if interrupt_flag &&& interrupt_enable ≠ 0 then { cpu with halted := false } else cpu
    some (cpu, 4)
  else do
  let arg_u8 ← cpu.mmu.read_byte ((cpu.pc + 1) % 0x10000)
  let arg_u16 ← cpu.mmu.read_short ((cpu.pc + 1) % 0x10000)
  let cpu := { cpu with pc := (cpu.pc +
    (if opcode == 0xCB then cb_opcode_bytes arg_u8 else opcode_bytes opcode)) % 0x10000 }
  match opcode with
  | 0x02 => do
    let m ← cpu.mmu.write_byte cpu.get_bc cpu.a
    some ({ cpu with mmu := m }, 8)
  | 0x06 => some ({ cpu with b := arg_u8 }, 8)
  | 0x0A => do
    let v ← cpu.mmu.read_byte cpu.get_bc
    some ({ cpu with a := v }, 8)
  | 0x0E => some ({ cpu with c := arg_u8 }, 8)
  | 0x12 => do
    let m ← cpu.mmu.write_byte cpu.get_de cpu.a
    some ({ cpu with mmu := m }, 8)
  | 0x16 => some ({ cpu with d := arg_u8 }, 8)
  | 0x1A => do
    let v ← cpu.mmu.read_byte cpu.get_de
    some ({ cpu with a := v }, 8)
  | 0x1E => some ({ cpu with e := arg_u8 }, 8)
  | 0x22 => do
    let m ← cpu.mmu.write_byte cpu.get_hl cpu.a
    let cpu := { cpu with mmu := m }
    some (cpu.set_hl ((cpu.get_hl + 1) % 0x10000), 8)
  | 0x26 => some ({ cpu with h := arg_u8 }, 8)
  | 0x2A => do
    let v ← cpu.mmu.read_byte cpu.get_hl
    let cpu := { cpu with a := v }
    some (cpu.set_hl ((cpu.get_hl + 1) % 0x10000), 8)
  | 0x2E => some ({ cpu with l := arg_u8 }, 8)
  | 0x32 => do
    let m ← cpu.mmu.write_byte cpu.get_hl cpu.a
    let cpu := { cpu with mmu := m }
    some (cpu.set_hl ((cpu.get_hl + 0x10000 - 1) % 0x10000), 8)
  | 0x36 => do
    let m ← cpu.mmu.write_byte cpu.get_hl arg_u8
    some ({ cpu with mmu := m }, 12)
  | 0x3A => do
    let v ← cpu.mmu.read_byte cpu.get_hl
    let cpu := { cpu with a := v }
    some (cpu.set_hl ((cpu.get_hl + 0x10000 - 1) % 0x10000), 8)
  | 0x3E => some ({ cpu with a := arg_u8 }, 8)
  | 0x40 => some ({ cpu with b := cpu.b }, 4)
  | 0x41 => some ({ cpu with b := cpu.c }, 4)
  | 0x42 => some ({ cpu with b := cpu.d }, 4)
  | 0x43 => some ({ cpu with b := cpu.e }, 4)
  | 0x44 => some ({ cpu with b := cpu.h }, 4)
  | 0x45 => some ({ cpu with b := cpu.l }, 4)
  | 0x46 => do
    let v ← cpu.mmu.read_byte cpu.get_hl
    some ({ cpu with b := v }, 8)
  | 0x47 => some ({ cpu with b := cpu.a }, 4)
  | 0x48 => some ({ cpu with c := cpu.b }, 4)
  | 0x49 => some ({ cpu with c := cpu.c }, 4)
  | 0x4A => some ({ cpu with c := cpu.d }, 4)
  | 0x4B => some ({ cpu with c := cpu.e }, 4)
  | 0x4C => some ({ cpu with c := cpu.h }, 4)
  | 0x4D => some ({ cpu with c := cpu.l }, 4)
  | 0x4E => do
    let v ← cpu.mmu.read_byte cpu.get_hl
    some ({ cpu with c := v }, 8)
  | 0x4F => some ({ cpu with c := cpu.a }, 4)
  | 0x50 => some ({ cpu with d := cpu.b }, 4)
  | 0x51 => some ({ cpu with d := cpu.c }, 4)
  | 0x52 => some ({ cpu with d := cpu.d }, 4)
  | 0x53 => some ({ cpu with d := cpu.e }, 4)
  | 0x54 => some ({ cpu with d := cpu.h }, 4)
  | 0x55 => some ({ cpu with d := cpu.l }, 4)
  | 0x56 => do
    let v ← cpu.mmu.read_byte cpu.get_hl
    some ({ cpu with d := v }, 8)
  | 0x57 => some ({ cpu with d := cpu.a }, 4)
  | 0x58 => some ({ cpu with e := cpu.b }, 4)
  | 0x59 => some ({ cpu with e := cpu.c }, 4)
  | 0x5A => some ({ cpu with e := cpu.d }, 4)
  | 0x5B => some ({ cpu with e := cpu.e }, 4)
  | 0x5C => some ({ cpu with e := cpu.h }, 4)
  | 0x5D => some ({ cpu with e := cpu.l }, 4)
  | 0x5E => do
    let v ← cpu.mmu.read_byte cpu.get_hl
    some ({ cpu with e := v }, 8)
  | 0x5F => some ({ cpu with e := cpu.a }, 4)
  | 0x60 => some ({ cpu with h := cpu.b }, 4)
  | 0x61 => some ({ cpu with h := cpu.c }, 4)
  | 0x62 => some ({ cpu with h := cpu.d }, 4)
  | 0x63 => some ({ cpu with h := cpu.e }, 4)
  | 0x64 => some ({ cpu with h := cpu.h }, 4)
  | 0x65 => some ({ cpu with h := cpu.l }, 4)
  | 0x66 => do
    let v ← cpu.mmu.read_byte cpu.get_hl
    some ({ cpu with h := v }, 8)
  | 0x67 => some ({ cpu with h := cpu.a }, 4)
  | 0x68 => some ({ cpu with l := cpu.b }, 4)
  | 0x69 => some ({ cpu with l := cpu.c }, 4)
  | 0x6A => some ({ cpu with l := cpu.d }, 4)
  | 0x6B => some ({ cpu with l := cpu.e }, 4)
  | 0x6C => some ({ cpu with l := cpu.h }, 4)
  | 0x6D => some ({ cpu with l := cpu.l }, 4)
  | 0x6E => do
    let v ← cpu.mmu.read_byte cpu.get_hl
    some ({ cpu with l := v }, 8)
  | 0x6F => some ({ cpu with l := cpu.a }, 4)
  | 0x70 => do
    let m ← cpu.mmu.write_byte cpu.get_hl cpu.b
    some ({ cpu with mmu := m }, 8)
  | 0x71 => do
    let m ← cpu.mmu.write_byte cpu.get_hl cpu.c
    some ({ cpu with mmu := m }, 8)
  | 0x72 => do
    let m ← cpu.mmu.write_byte cpu.get_hl cpu.d
    some ({ cpu with mmu := m }, 8)
  | 0x73 => do
    let m ← cpu.mmu.write_byte cpu.get_hl cpu.e
    some ({ cpu with mmu := m }, 8)
  | 0x74 => do
    let m ← cpu.mmu.write_byte cpu.get_hl cpu.h
    some ({ cpu with mmu := m }, 8)
  | 0x75 => do
    let m ← cpu.mmu.write_byte cpu.get_hl cpu.l
    some ({ cpu with mmu := m }, 8)
  | 0x77 => do
    let m ← cpu.mmu.write_byte cpu.get_hl cpu.a
    some ({ cpu with mmu := m }, 8)
  | 0x78 => some ({ cpu with a := cpu.b }, 4)
  | 0x79 => some ({ cpu with a := cpu.c }, 4)
  | 0x7A => some ({ cpu with a := cpu.d }, 4)
  | 0x7B => some ({ cpu with a := cpu.e }, 4)
  | 0x7C => some ({ cpu with a := cpu.h }, 4)
  | 0x7D => some ({ cpu with a := cpu.l }, 4)
  | 0x7E => do
    let v ← cpu.mmu.read_byte cpu.get_hl
    some ({ cpu with a := v }, 8)
  | 0x7F => some ({ cpu with a := cpu.a }, 4)
  | 0xE0 => do
    let m ← cpu.mmu.write_byte (0xFF00 + arg_u8) cpu.a
    some ({ cpu with mmu := m }, 12)
  | 0xE2 => do
    let m ← cpu.mmu.write_byte (0xFF00 + cpu.c) cpu.a
    some ({ cpu with mmu := m }, 8)
  | 0xEA => do
    let m ← cpu.mmu.write_byte arg_u16 cpu.a
    some ({ cpu with mmu := m }, 12)
  | 0xF0 => do
    let v ← cpu.mmu.read_byte (0xFF00 + arg_u8)
    some ({ cpu with a := v }, 8)
  | 0xF2 => do
    let v ← cpu.mmu.read_byte (0xFF00 + cpu.c)
    some ({ cpu with a := v }, 8)
  | 0xFA => do
    let v ← cpu.mmu.read_byte arg_u16
    some ({ cpu with a := v }, 8)
  | 0x01 => some (cpu.set_bc arg_u16, 12)
  | 0x08 => do
    let m ← cpu.mmu.write_short arg_u16 cpu.sp
    some ({ cpu with mmu := m }, 20)
  | 0x11 => some (cpu.set_de arg_u16, 12)
  | 0x21 => some (cpu.set_hl arg_u16, 12)
  | 0x31 => some ({ cpu with sp := arg_u16 }, 12)
  | 0xC1 => do
    let p ← cpu.pop
    some (p.2.set_bc p.1, 12)
  | 0xC5 => do
    let cpu ← cpu.push cpu.get_bc
    some (cpu, 16)
  | 0xD1 => do
    let p ← cpu.pop
    some (p.2.set_de p.1, 12)
  | 0xD5 => do
    let cpu ← cpu.push cpu.get_de
    some (cpu, 16)
  | 0xE1 => do
    let p ← cpu.pop
    some (p.2.set_hl p.1, 12)
  | 0xE5 => do
    let cpu ← cpu.push cpu.get_hl
    some (cpu, 16)
  | 0xF1 => do
    let p ← cpu.pop
    some (p.2.set_af (p.1 &&& 0xFFF0), 12)
  | 0xF5 => do
    let cpu ← cpu.push cpu.get_af
    some (cpu, 16)
  | 0xF8 =>
    let temp := (cpu.sp + i8_as_u16 arg_u8) % 0x10000
    let cpu := cpu.set_hl temp
    let cpu := cpu.set_flag .Zero false
    let cpu := cpu.set_flag .Sub false
    let cpu := cpu.set_flag .HalfCarry ((cpu.sp &&& 0x0F) + (arg_u8 &&& 0x0F) > 0x0F)
    let cpu := cpu.set_flag .Carry ((cpu.sp &&& 0xFF) + (arg_u8 &&& 0xFF) > 0xFF)
    some (cpu, 12)
  | 0xF9 => some ({ cpu with sp := cpu.get_hl }, 8)
  | 0x04 => let r := cpu.inc cpu.b; some ({ r.2 with b := r.1 }, 4)
  | 0x05 => let r := cpu.dec cpu.b; some ({ r.2 with b := r.1 }, 4)
  | 0x0C => let r := cpu.inc cpu.c; some ({ r.2 with c := r.1 }, 4)
  | 0x0D => let r := cpu.dec cpu.c; some ({ r.2 with c := r.1 }, 4)
  | 0x14 => let r := cpu.inc cpu.d; some ({ r.2 with d := r.1 }, 4)
  | 0x15 => let r := cpu.dec cpu.d; some ({ r.2 with d := r.1 }, 4)
  | 0x1C => let r := cpu.inc cpu.e; some ({ r.2 with e := r.1 }, 4)
  | 0x1D => let r := cpu.dec cpu.e; some ({ r.2 with e := r.1 }, 4)
  | 0x24 => let r := cpu.inc cpu.h; some ({ r.2 with h := r.1 }, 4)
  | 0x25 => let r := cpu.dec cpu.h; some ({ r.2 with h := r.1 }, 4)
  | 0x2C => let r := cpu.inc cpu.l; some ({ r.2 with l := r.1 }, 4)
  | 0x2D => let r := cpu.dec cpu.l; some ({ r.2 with l := r.1 }, 4)
  | 0x34 => do
    let temp ← cpu.mmu.read_byte cpu.get_hl
    let r := cpu.inc temp
    let m ← cpu.mmu.write_byte cpu.get_hl r.1
    some ({ r.2 with mmu := m }, 12)
  | 0x35 => do
    let temp ← cpu.mmu.read_byte cpu.get_hl
    let r := cpu.dec temp
    let m ← cpu.mmu.write_byte cpu.get_hl r.1
    some ({ r.2 with mmu := m }, 12)
  | 0x3C => let r := cpu.inc cpu.a; some ({ r.2 with a := r.1 }, 4)
  | 0x3D => let r := cpu.dec cpu.a; some ({ r.2 with a := r.1 }, 4)
  | 0x80 => some (cpu.add_a cpu.b, 4)
  | 0x81 => some (cpu.add_a cpu.c, 4)
  | 0x82 => some (cpu.add_a cpu.d, 4)
  | 0x83 => some (cpu.add_a cpu.e, 4)
  | 0x84 => some (cpu.add_a cpu.h, 4)
  | 0x85 => some (cpu.add_a cpu.l, 4)
  | 0x86 => do
    let temp ← cpu.mmu.read_byte cpu.get_hl
    some (cpu.add_a temp, 8)
  | 0x87 => some (cpu.add_a cpu.a, 4)
  | 0x88 => some (cpu.adc cpu.b, 4)
  | 0x89 => some (cpu.adc cpu.c, 4)
  | 0x8A => some (cpu.adc cpu.d, 4)
  | 0x8B => some (cpu.adc cpu.e, 4)
  | 0x8C => some (cpu.adc cpu.h, 4)
  | 0x8D => some (cpu.adc cpu.l, 4)
  | 0x8E => do
    let temp ← cpu.mmu.read_byte cpu.get_hl
    some (cpu.adc temp, 8)
  | 0x8F => some (cpu.adc cpu.a, 4)
  | 0x90 => some (cpu.sub cpu.b, 4)
  | 0x91 => some (cpu.sub cpu.c, 4)
  | 0x92 => some (cpu.sub cpu.d, 4)
  | 0x93 => some (cpu.sub cpu.e, 4)
  | 0x94 => some (cpu.sub cpu.h, 4)
  | 0x95 => some (cpu.sub cpu.l, 4)
  | 0x96 => do
    let temp ← cpu.mmu.read_byte cpu.get_hl
    some (cpu.sub temp, 8)
  | 0x97 => some (cpu.sub cpu.a, 4)
  | 0x98 => some (cpu.sbc cpu.b, 4)
  | 0x99 => some (cpu.sbc cpu.c, 4)
  | 0x9A => some (cpu.sbc cpu.d, 4)
  | 0x9B => some (cpu.sbc cpu.e, 4)
  | 0x9C => some (cpu.sbc cpu.h, 4)
  | 0x9D => some (cpu.sbc cpu.l, 4)
  | 0x9E => do
    let temp ← cpu.mmu.read_byte cpu.get_hl
    some (cpu.sbc temp, 8)
  | 0x9F => some (cpu.sbc cpu.a, 4)
  | 0xA0 => some (cpu.and cpu.b, 4)
  | 0xA1 => some (cpu.and cpu.c, 4)
  | 0xA2 => some (cpu.and cpu.d, 4)
  | 0xA3 => some (cpu.and cpu.e, 4)
  | 0xA4 => some (cpu.and cpu.h, 4)
  | 0xA5 => some (cpu.and cpu.l, 4)
  | 0xA6 => do
    let temp ← cpu.mmu.read_byte cpu.get_hl
    some (cpu.and temp, 8)
  | 0xA7 => some (cpu.and cpu.a, 4)
  | 0xA8 => some (cpu.xor cpu.b, 4)
  | 0xA9 => some (cpu.xor cpu.c, 4)
  | 0xAA => some (cpu.xor cpu.d, 4)
  | 0xAB => some (cpu.xor cpu.e, 4)
  | 0xAC => some (cpu.xor cpu.h, 4)
  | 0xAD => some (cpu.xor cpu.l, 4)
  | 0xAE => do
    let temp ← cpu.mmu.read_byte cpu.get_hl
    some (cpu.xor temp, 8)
  | 0xAF => some (cpu.xor cpu.a, 4)
  | 0xB0 => some (cpu.or cpu.b, 4)
  | 0xB1 => some (cpu.or cpu.c, 4)
  | 0xB2 => some (cpu.or cpu.d, 4)
  | 0xB3 => some (cpu.or cpu.e, 4)
  | 0xB4 => some (cpu.or cpu.h, 4)
  | 0xB5 => some (cpu.or cpu.l, 4)
  | 0xB6 => do
    let temp ← cpu.mmu.read_byte cpu.get_hl
    some (cpu.or temp, 8)
  | 0xB7 => some (cpu.or cpu.a, 4)
  | 0xB8 => some (cpu.cp cpu.b, 4)
  | 0xB9 => some (cpu.cp cpu.c, 4)
  | 0xBA => some (cpu.cp cpu.d, 4)
  | 0xBB => some (cpu.cp cpu.e, 4)
  | 0xBC => some (cpu.cp cpu.h, 4)
  | 0xBD => some (cpu.cp cpu.l, 4)
  | 0xBE => do
    let temp ← cpu.mmu.read_byte cpu.get_hl
    some (cpu.cp temp, 8)
  | 0xBF => some (cpu.cp cpu.a, 4)
  | 0xC6 => some (cpu.add_a arg_u8, 8)
  | 0xCE => some (cpu.adc arg_u8, 8)
  | 0xD6 => some (cpu.sub arg_u8, 8)
  | 0xDE => some (cpu.sbc arg_u8, 8)
  | 0xE6 => some (cpu.and arg_u8, 8)
  | 0xEE => some (cpu.xor arg_u8, 8)
  | 0xF6 => some (cpu.or arg_u8, 8)
  | 0xFE => some (cpu.cp arg_u8, 8)
  | 0x03 => some (cpu.set_bc ((cpu.get_bc + 1) % 0x10000), 8)
  | 0x09 => some (cpu.add_hl cpu.get_bc, 8)
  | 0x0B => some (cpu.set_bc ((cpu.get_bc + 0x10000 - 1) % 0x10000), 8)
  | 0x13 => some (cpu.set_de ((cpu.get_de + 1) % 0x10000), 8)
  | 0x19 => some (cpu.add_hl cpu.get_de, 8)
  | 0x1B => some (cpu.set_de ((cpu.get_de + 0x10000 - 1) % 0x10000), 8)
  | 0x23 => some (cpu.set_hl ((cpu.get_hl + 1) % 0x10000), 8)
  | 0x29 => some (cpu.add_hl cpu.get_hl, 8)
  | 0x2B => some (cpu.set_hl ((cpu.get_hl + 0x10000 - 1) % 0x10000), 8)
  | 0x33 => some ({ cpu with sp := (cpu.sp + 1) % 0x10000 }, 8)
  | 0x39 => some (cpu.add_hl cpu.sp, 8)
  | 0x3B => some ({ cpu with sp := (cpu.sp + 0x10000 - 1) % 0x10000 }, 8)
  | 0xE8 => some (cpu.add_signed arg_u8, 16)
  | 0x07 => some (cpu.rlca, 4)
  | 0x0F => some (cpu.rrca, 4)
  | 0x17 => some (cpu.rla, 4)
  | 0x1F => some (cpu.rra, 4)
  | 0xCB => do
    let r ← cpu.execute_cb arg_u8
    some (r.1, 4)
  | 0x00 => some (cpu, 4)
  | 0x10 => some ({ cpu with stopped := true }, 4)
  | 0x27 => some (cpu.daa, 4)
  | 0x2F => some (cpu.cpl, 4)
  | 0x37 =>
    let cpu := cpu.set_flag .Sub false
    let cpu := cpu.set_flag .HalfCarry false
    some (cpu.set_flag .Carry true, 4)
  | 0x3F =>
    let carry := cpu.get_flag .Carry == 1
    let cpu := cpu.set_flag .Sub false
    let cpu := cpu.set_flag .HalfCarry false
    some (cpu.set_flag .Carry (!carry), 4)
  | 0x76 => some ({ cpu with halted := true }, 4)
  | 0xF3 => some ({ cpu with ime := false }, 4)
  | 0xFB => some ({ cpu with ime := true }, 4)
  | 0x18 => some ({ cpu with pc := (cpu.pc + i8_as_u16 arg_u8) % 0x10000 }, 12)
  | 0x20 =>
    if cpu.get_flag .Zero = 0 then
      some ({ cpu with pc := (cpu.pc + i8_as_u16 arg_u8) % 0x10000 }, 12)
    else
      some (cpu, 8)
  | 0x28 =>
    if cpu.get_flag .Zero = 1 then
      some ({ cpu with pc := (cpu.pc + i8_as_u16 arg_u8) % 0x10000 }, 12)
    else
      some (cpu, 8)
  | 0x30 =>
    if cpu.get_flag .Carry = 0 then
      some ({ cpu with pc := (cpu.pc + i8_as_u16 arg_u8) % 0x10000 }, 12)
    else
      some (cpu, 8)
  | 0x38 =>
    if cpu.get_flag .Carry = 1 then
      some ({ cpu with pc := (cpu.pc + i8_as_u16 arg_u8) % 0x10000 }, 12)
    else
      some (cpu, 8)
  | 0xC0 =>
    if cpu.get_flag .Zero = 0 then do
      let p ← cpu.pop
      some ({ p.2 with pc := p.1 }, 20)
    else
      some (cpu, 8)
  | 0xC2 =>
    if cpu.get_flag .Zero = 0 then
      some ({ cpu with pc := arg_u16 }, 16)
    else
      some (cpu, 12)
  | 0xC3 => some ({ cpu with pc := arg_u16 }, 16)
  | 0xC4 =>
    if cpu.get_flag .Zero = 0 then do
      let cpu ← cpu.push cpu.pc
      some ({ cpu with pc := arg_u16 }, 24)
    else
      some (cpu, 12)
  | 0xC7 => do
    let cpu ← cpu.push cpu.pc
    some ({ cpu with pc := 0x00 }, 16)
  | 0xC8 =>
    if cpu.get_flag .Zero = 1 then do
      let p ← cpu.pop
      some ({ p.2 with pc := p.1 }, 20)
    else
      some (cpu, 8)
  | 0xC9 => do
    let p ← cpu.pop
    some ({ p.2 with pc := p.1 }, 16)
  | 0xCA =>
    if cpu.get_flag .Zero = 1 then
      some ({ cpu with pc := arg_u16 }, 16)
    else
      some (cpu, 12)
  | 0xCC =>
    if cpu.get_flag .Zero = 1 then do
      let cpu ← cpu.push cpu.pc
      some ({ cpu with pc := arg_u16 }, 24)
    else
      some (cpu, 12)
  | 0xCD => do
    let cpu ← cpu.push cpu.pc
    some ({ cpu with pc := arg_u16 }, 24)
  | 0xCF => do
    let cpu ← cpu.push cpu.pc
    some ({ cpu with pc := 0x08 }, 16)
  | 0xD0 =>
    if cpu.get_flag .Carry = 0 then do
      let p ← cpu.pop
      some ({ p.2 with pc := p.1 }, 12)
    else
      some (cpu, 8)
  | 0xD2 =>
    if cpu.get_flag .Carry = 0 then
      some ({ cpu with pc := arg_u16 }, 16)
    else
      some (cpu, 12)
  | 0xD4 =>
    if cpu.get_flag .Carry = 0 then do
      let cpu ← cpu.push cpu.pc
      some ({ cpu with pc := arg_u16 }, 24)
    else
      some (cpu, 12)
  | 0xD7 => do
    let cpu ← cpu.push cpu.pc
    some ({ cpu with pc := 0x10 }, 16)
  | 0xD8 =>
    if cpu.get_flag .Carry = 1 then do
      let p ← cpu.pop
      some ({ p.2 with pc := p.1 }, 20)
    else
      some (cpu, 8)
  | 0xD9 => do
    let p ← cpu.pop
    some ({ p.2 with pc := p.1, ime := true }, 16)
  | 0xDA =>
    if cpu.get_flag .Carry = 1 then
      some ({ cpu with pc := arg_u16 }, 16)
    else
      some (cpu, 12)
  | 0xDC =>
    if cpu.get_flag .Carry = 1 then do
      let cpu ← cpu.push cpu.pc
      some ({ cpu with pc := arg_u16 }, 24)
    else
      some (cpu, 12)
  | 0xDF => do
    let cpu ← cpu.push cpu.pc
    some ({ cpu with pc := 0x18 }, 16)
  | 0xE7 => do
    let cpu ← cpu.push cpu.pc
    some ({ cpu with pc := 0x20 }, 16)
  | 0xE9 => some ({ cpu with pc := cpu.get_hl }, 4)
  | 0xEF => do
    let cpu ← cpu.push cpu.pc
    some ({ cpu with pc := 0x28 }, 16)
  | 0xF7 => do
    let cpu ← cpu.push cpu.pc
    some ({ cpu with pc := 0x30 }, 16)
  | 0xFF => do
    let cpu ← cpu.push cpu.pc
    some ({ cpu with pc := 0x38 }, 16)
  | _ => none

/-! ## PPU (src/ppu.rs) -/

/-- Modelled from the spec: `SCREEN_WIDTH` lives in src/consts.rs, which
is not among the provided sources.  Spec §1/§6: the framebuffer is
160×144. -/
def SCREEN_WIDTH : Nat := 160

/-- Modelled from the spec: `SCREEN_HEIGHT` (src/consts.rs). -/
def SCREEN_HEIGHT : Nat := 144

/-- PPU register addresses (the `PPUMemory` enum). -/
def PPUMemory.LCDC : Nat := 0xFF40

def PPUMemory.SCY : Nat := 0xFF42

def PPUMemory.SCX : Nat := 0xFF43

def PPUMemory.LY : Nat := 0xFF44

def PPUMemory.BGP : Nat := 0xFF47

def PPUMemory.WY : Nat := 0xFF4A

def PPUMemory.WX : Nat := 0xFF4B

inductive PPUMode
  | HBlank | VBlank | OAM | VRAM
deriving DecidableEq

/-- Bit positions of the `LCDCBits` enum. -/
def LCDCBits.BackgroundWindowEnable : Nat := 0

def LCDCBits.ObjectDisplayEnable : Nat := 1

def LCDCBits.BackgroundTileMapArea : Nat := 3

def LCDCBits.BackgroundAndWindowTileDataSelect : Nat := 4

def LCDCBits.WindowDisplayEnable : Nat := 5

def LCDCBits.WindowTileMapDisplaySelect : Nat := 6

def LCDCBits.LCDDisplayEnable : Nat := 7

def COLOR_WHITE : Nat := 0xFF

def COLOR_LIGHT_GRAY : Nat := 0xAA

def COLOR_DARK_GRAY : Nat := 0x55

def COLOR_BLACK : Nat := 0x00

/-- The PPU's own state.  The `Rc<RefCell<CPU>>` / `Rc<RefCell<MMU>>`
handles are modelled by passing the shared `MMU` explicitly (the PPU
never touches CPU registers: `request_interrupt` only writes the IF byte
of the shared MMU). -/
structure PPU where
  framebuffer : Nat → Nat
  current_mode : PPUMode
  current_cycles : Nat

def PPU.new : PPU :=
  { framebuffer := fun _ => 0xFF, current_mode := .OAM, current_cycles := 0 }

/-- A store to `framebuffer[idx]`; `none` models the panic on an
out-of-bounds index into the `[u8; 144 * 160]` array. -/
def PPU.fb_write (p : PPU) (idx val : Nat) : Option PPU :=
  if idx < 144 * 160 then
    some { p with framebuffer := fun i => if i = idx then val else p.framebuffer i }
  else
    none

/-- The BGP shade-to-color match shared by the background and window
paths. -/
def palette_color (shade : Nat) : Nat :=
  if shade = 0 then COLOR_WHITE
  else if shade = 1 then COLOR_LIGHT_GRAY
  else if shade = 2 then COLOR_DARK_GRAY
  else if shade = 3 then COLOR_BLACK
  else COLOR_WHITE

/-- The color computed by one iteration of the x-loop of
`PPU::draw_background_scanline` (the loop body up to the framebuffer
store). -/
def PPU.background_pixel_color (m : MMU) (scanline x : Nat) : Option Nat := do
  let lcdc ← m.read_byte PPUMemory.LCDC
  let tile_map_base_bit := (lcdc >>> LCDCBits.BackgroundTileMapArea) &&& 1
  let tile_map_base := if tile_map_base_bit = 0 then 0x9800 else 0x9C00
  let tile_data_base_bit := (lcdc >>> LCDCBits.BackgroundAndWindowTileDataSelect) &&& 1
  let tile_data_base := if tile_data_base_bit = 0 then 0x8800 else 0x8000
  let scx ← m.read_byte PPUMemory.SCX
  let scy ← m.read_byte PPUMemory.SCY
  let background_x := (x + scx) % 0x10000 % 256
  let background_y := (scanline + scy) % 0x100 % 256
  let tile_map_row_offset := (background_y / 8) * 32
  let tile_map_col_offset := background_x / 8
  let tile_map_offset := tile_map_row_offset + tile_map_col_offset
  let tile_index ← m.read_byte (tile_map_base + tile_map_offset)
  let tile_data_address :=
    if tile_data_base = 0x8000 then tile_data_base + tile_index * 16
    else tile_data_base +
      (if tile_index % 256 < 128 then (tile_index % 256 + 128) * 16
       else (tile_index % 256 - 128) * 16)
  let tile_data_line := background_y % 8
  let tile_data_byte_1 ← m.read_byte (tile_data_address + tile_data_line * 2)
  let tile_data_byte_2 ← m.read_byte (tile_data_address + (tile_data_line * 2 + 1))
  let tile_data_byte_index := 7 - background_x % 8
  let tile_data_bit_1 := (tile_data_byte_1 >>> tile_data_byte_index) &&& 1
  let tile_data_bit_2 := (tile_data_byte_2 >>> tile_data_byte_index) &&& 1
  let color_index := (tile_data_bit_2 <<< 1) ||| tile_data_bit_1
  let palette ← m.read_byte PPUMemory.BGP
  some (palette_color ((palette >>> (color_index * 2)) &&& 0b11))

/-- One iteration of the x-loop of `PPU::draw_background_scanline`:
compute the color, then store `framebuffer[scanline*160 + x]`. -/
def PPU.draw_background_pixel (p : PPU) (m : MMU) (scanline x : Nat) : Option PPU := do
  let color ← PPU.background_pixel_color m scanline x
  p.fb_write (scanline * SCREEN_WIDTH + x) color

def PPU.draw_background_scanline (p : PPU) (m : MMU) (scanline : Nat) : Option PPU :=
  (List.range SCREEN_WIDTH).foldlM (fun p x => p.draw_background_pixel m scanline x) p

/-- The color computed by one iteration of the x-loop of
`PPU::draw_window_scanline`; `none` in the inner option encodes the
`continue` that skips pixels left of the window.  `window_x = x - wx`
is a plain `u16` subtraction, which can underflow when `wx - 7 ≤ x < wx`
(wrapping semantics); the subsequent `u16` offset arithmetic wraps too.
The source indexes the tile map with the roles of `window_x` and
`window_y` swapped relative to the background path; embedded as
written. -/
def PPU.window_pixel_color (m : MMU) (scanline x : Nat) : Option (Option Nat) := do
  let wx ← m.read_byte PPUMemory.WX
  let wy ← m.read_byte PPUMemory.WY
  if scanline < wy ∨ x + 7 < wx then
    some none
  else do
    let lcdc ← m.read_byte PPUMemory.LCDC
    let tile_map_base_bit := (lcdc >>> LCDCBits.WindowTileMapDisplaySelect) &&& 1
    let tile_map_base := if tile_map_base_bit = 0 then 0x9800 else 0x9C00
    let tile_data_base_bit := (lcdc >>> LCDCBits.BackgroundAndWindowTileDataSelect) &&& 1
    let tile_data_base := if tile_data_base_bit = 0 then 0x8800 else 0x8000
    let window_y := scanline - wy
    let window_x := (x + 0x10000 - wx) % 0x10000
    let tile_map_row_offset := ((window_x / 8) * 32) % 0x10000
    let tile_map_col_offset := window_y / 8
    let tile_map_offset := (tile_map_row_offset + tile_map_col_offset) % 0x10000
    let tile_index ← m.read_byte ((tile_map_base + tile_map_offset) % 0x10000)
    let tile_data_address :=
      if tile_data_base = 0x8000 then tile_data_base + tile_index * 16
      else tile_data_base +
        (if tile_index % 256 < 128 then (tile_index % 256 + 128) * 16
         else (tile_index % 256 - 128) * 16)
    let tile_data_line := window_y % 8
    let tile_data_byte_1 ← m.read_byte ((tile_data_address + tile_data_line * 2) % 0x10000)
    let tile_data_byte_2 ← m.read_byte ((tile_data_address + (tile_data_line * 2 + 1)) % 0x10000)
    let tile_data_byte_index := 7 - window_x % 8
    let tile_data_bit_1 := (tile_data_byte_1 >>> tile_data_byte_index) &&& 1
    let tile_data_bit_2 := (tile_data_byte_2 >>> tile_data_byte_index) &&& 1
    let color_index := (tile_data_bit_2 <<< 1) ||| tile_data_bit_1
    let palette ← m.read_byte PPUMemory.BGP
    some (some (palette_color ((palette >>> (color_index * 2)) &&& 0b11)))

/-- One iteration of the x-loop of `PPU::draw_window_scanline`. -/
def PPU.draw_window_pixel (p : PPU) (m : MMU) (scanline x : Nat) : Option PPU := do
  let c ← PPU.window_pixel_color m scanline x
  match c with
  | none => some p
  | some color => p.fb_write (scanline * SCREEN_WIDTH + x) color

def PPU.draw_window_scanline (p : PPU) (m : MMU) (scanline : Nat) : Option PPU :=
  (List.range SCREEN_WIDTH).foldlM (fun p x => p.draw_window_pixel m scanline x) p

/-- `PPU::draw_sprites_scanline` has an empty body in the source. -/
def PPU.draw_sprites_scanline (p : PPU) (_ : MMU) (_ : Nat) : PPU := p

/-- `PPU::draw_scanline`. -/
def PPU.draw_scanline (p : PPU) (m : MMU) (scanline : Nat) : Option PPU :=
  (m.read_byte PPUMemory.LCDC).bind fun lcdc =>
  if lcdc &&& (1 <<< LCDCBits.LCDDisplayEnable) = 0 then
    some p
  else
    (if lcdc &&& (1 <<< LCDCBits.BackgroundWindowEnable) ≠ 0 then
        p.draw_background_scanline m scanline
      else some p).bind fun p1 =>
    (if lcdc &&& (1 <<< LCDCBits.WindowDisplayEnable) ≠ 0 then
        p1.draw_window_scanline m scanline
      else some p1).bind fun p2 =>
    some (if lcdc &&& (1 <<< LCDCBits.ObjectDisplayEnable) ≠ 0 then
        p2.draw_sprites_scanline m scanline
      else p2)

/-- `CPU::request_interrupt(InterruptBit::VBlank)` as called by the PPU
through its `Rc<RefCell<CPU>>` handle: it only reads and writes the IF
byte of the shared MMU. -/
def MMU.request_vblank_interrupt (m : MMU) : Option MMU := do
  let interrupt_flag ← m.read_byte 0xFF0F
  m.write_byte 0xFF0F (interrupt_flag ||| (1 <<< InterruptBit.VBlank.toBit))

/-- `PPU::update`: accumulate T-cycles and drive the per-scanline state
machine (mode transitions fire when the accumulated count strictly
exceeds the mode budget). -/
def PPU.update (p : PPU) (m : MMU) (cycles : Nat) : Option (PPU × MMU) := do
  let scanline ← m.read_byte PPUMemory.LY
  let p := { p with current_cycles := p.current_cycles + cycles }
  match p.current_mode with
  | .OAM =>
    if p.current_cycles > 80 then
      some ({ p with current_cycles := p.current_cycles - 80, current_mode := .VRAM }, m)
    else
      some (p, m)
  | .VRAM =>
    if p.current_cycles > 172 then do
      let p := { p with current_cycles := p.current_cycles - 172, current_mode := .HBlank }
      let lcdc ← m.read_byte PPUMemory.LCDC
      let p ← if lcdc &&& (1 <<< LCDCBits.LCDDisplayEnable) ≠ 0 then
          p.draw_scanline m scanline
        else some p
      some (p, m)
    else
      some (p, m)
  | .HBlank =>
    if p.current_cycles > 204 then
      let p := { p with current_cycles := p.current_cycles - 204 }
      if scanline = SCREEN_HEIGHT - 1 then do
        let m ← m.request_vblank_interrupt
        let m ← m.write_byte PPUMemory.LY ((scanline + 1) % 0x100)
        some ({ p with current_mode := .VBlank }, m)
      else do
        let m ← m.write_byte PPUMemory.LY ((scanline + 1) % 0x100)
        some ({ p with current_mode := .OAM }, m)
    else
      some (p, m)
  | .VBlank =>
    if p.current_cycles > 456 then
      if scanline = SCREEN_HEIGHT + 9 then do
        let m ← m.write_byte PPUMemory.LY 0
        some ({ p with current_mode := .OAM, current_cycles := p.current_cycles - 456 }, m)
      else do
        let m ← m.write_byte PPUMemory.LY ((scanline + 1) % 0x100)
        some ({ p with current_cycles := p.current_cycles - 456 }, m)
    else
      some (p, m)

/-! ## General bit-arithmetic lemmas -/

theorem mod16_eq_and (x : Nat) : x % 16 = x &&& 15 := by
  have := Nat.and_pow_two_sub_one_eq_mod x 4
  norm_num at this
  exact this.symm

theorem and_or_absorb (a m : Nat) : (a &&& m) ||| m = m := by
  apply Nat.eq_of_testBit_eq
  intro i
  simp only [Nat.testBit_or, Nat.testBit_and]
  cases m.testBit i <;> simp

theorem bytes_recombine (v : Nat) :
    (v &&& 0xFF) ||| ((v >>> 8) <<< 8) = v := by
  have h1 : v &&& 0xFF = v % 256 := by
    have := Nat.and_pow_two_sub_one_eq_mod v 8
    norm_num at this
    exact this
  have h2 : v >>> 8 = v / 256 := by
    rw [Nat.shiftRight_eq_div_pow]
  have h3 : (v / 256) <<< 8 = 2 ^ 8 * (v / 256) := by
    rw [Nat.shiftLeft_eq]
    ring
  rw [h1, h2, h3, Nat.or_comm]
  rw [← Nat.mul_add_lt_is_or (show v % 256 < 2 ^ 8 by omega) (v / 256)]
  omega

/-! ## Shared concrete fixtures (an all-zero 32 KiB-header cartridge) -/

def zeroCart : Cart :=
  { rom := List.replicate 0x150 0, title := "", cartridge_type := 0
    rom_size_code := 0, rom_size_bytes := 0x8000, ram_size_code := 0
    ram_size_bytes := 0, ram_enabled := false, rom_bank_selected := 1 }

def baseMMU : MMU := MMU.new zeroCart Joypad.new

def baseCPU : CPU := CPU.new baseMMU

/-! ## C9: the DAA end-to-end scenario -/

/-- C9 counterexample: starting from A=0x45, F=0x00, `add_a 0x38` yields
A=0x7D but the HalfCarry flag is *clear* (low nibbles 5+8=13 do not
carry), contradicting the claim that H is set. -/
theorem C9_counterexample :
    (({ baseCPU with a := 0x45, f := 0x00 } : CPU).add_a 0x38).a = 0x7D ∧
    (({ baseCPU with a := 0x45, f := 0x00 } : CPU).add_a 0x38).get_flag .HalfCarry ≠ 1 := by
  constructor
  · rfl
  · decide

/-- C9 amended: A=0x45, F=0x00; ADD A,0x38 gives A=0x7D with H=0 (not
H=1 as claimed); DAA then gives A=0x83 with Z=0, H=0, C=0 as claimed. -/
theorem C9_amended_holds :
    (({ baseCPU with a := 0x45, f := 0x00 } : CPU).add_a 0x38).a = 0x7D ∧
    (({ baseCPU with a := 0x45, f := 0x00 } : CPU).add_a 0x38).get_flag .HalfCarry = 0 ∧
    ((({ baseCPU with a := 0x45, f := 0x00 } : CPU).add_a 0x38).daa).a = 0x83 ∧
    ((({ baseCPU with a := 0x45, f := 0x00 } : CPU).add_a 0x38).daa).get_flag .Zero = 0 ∧
    ((({ baseCPU with a := 0x45, f := 0x00 } : CPU).add_a 0x38).daa).get_flag .HalfCarry = 0 ∧
    ((({ baseCPU with a := 0x45, f := 0x00 } : CPU).add_a 0x38).daa).get_flag .Carry = 0 := by
  refine ⟨rfl, by decide, by decide, by decide, by decide, by decide⟩

/-! ## C10: joypad read-back invariants -/

theorem joypad_hi_nibble_ones (x : Nat) : (0xFF &&& (x ||| 0xF0)) &&& 0xF0 = 0xF0 := by
  rw [Nat.and_assoc, Nat.and_distrib_right]
  have h1 : (0xF0 : Nat) &&& 0xF0 = 0xF0 := by decide
  rw [h1, and_or_absorb]
  decide

theorem joypad_read_hi (j : Joypad) : j.read &&& 0xF0 = 0xF0 := by
  simp only [Joypad.read]
  split
  · exact joypad_hi_nibble_ones _
  · split
    · exact joypad_hi_nibble_ones _
    · decide

/-- C10: for every joypad state, a read of 0xFF00 has bits 4–7 all set
(the written select bits are never read back), and if neither select
bit is driven low the whole byte reads 0xFF; this persists across any
write. -/
theorem C10_joypad_readback (j : Joypad) :
    j.read &&& 0xF0 = 0xF0 ∧
    (j.select_buttons &&& 0x20 ≠ 0 → j.select_buttons &&& 0x10 ≠ 0 → j.read = 0xFF) ∧
    (∀ v, (j.write v).read &&& 0xF0 = 0xF0 ∧
      ((v &&& 0x30) &&& 0x20 ≠ 0 → (v &&& 0x30) &&& 0x10 ≠ 0 → (j.write v).read = 0xFF)) := by
  refine ⟨joypad_read_hi j, ?_, ?_⟩
  · intro h5 h4
    simp only [Joypad.read]
    rw [if_neg h5, if_neg h4]
  · intro v
    refine ⟨joypad_read_hi _, ?_⟩
    intro h5 h4
    simp only [Joypad.read, Joypad.write] at h5 h4 ⊢
    rw [if_neg h5, if_neg h4]

/-- C10 witness: the reset joypad state (select = 0x30, nothing driven
low) reads back 0xFF, and after writing 0x00 (both rows selected) the
select bits still read back as ones. -/
theorem C10_witness :
    Joypad.new.read &&& 0xF0 = 0xF0 ∧ Joypad.new.read = 0xFF ∧
    (Joypad.new.write 0x00).read &&& 0xF0 = 0xF0 :=
  ⟨(C10_joypad_readback Joypad.new).1,
   (C10_joypad_readback Joypad.new).2.1 (by decide) (by decide),
   ((C10_joypad_readback Joypad.new).2.2 0x00).1⟩

/-! ## C4 / C5 / C6 / C2: MMU routing facts -/

theorem get_replicate (n i a : Nat) :
    (List.replicate n a).get? i = if i < n then some a else none := by
  rw [List.get?_eq_getElem?]
  exact List.getElem?_replicate

/-- C4: writing 0xFF04 is not trapped by `MMU::write_byte`; the value is
stored and read back verbatim instead of resetting DIV to 0. -/
theorem C4_div_write_not_reset :
    ((baseMMU.write_byte 0xFF04 0x55).bind fun m => m.read_byte 0xFF04) = some 0x55 ∧
    (0x55 : Nat) ≠ 0 := by
  exact ⟨rfl, by decide⟩

/-- C5: with `ram_enabled = false`, external-RAM reads do not return 0xFF
(the fresh bus reads 0x00) and writes are stored and read back. -/
theorem C5_ram_gating_absent :
    baseMMU.cart.ram_enabled = false ∧
    baseMMU.read_byte 0xA000 = some 0x00 ∧
    ((baseMMU.write_byte 0xA000 0x12).bind fun m => m.read_byte 0xA000) = some 0x12 ∧
    (0x12 : Nat) ≠ 0xFF ∧ (0x00 : Nat) ≠ 0xFF := by
  exact ⟨rfl, rfl, rfl, by decide, by decide⟩

/-- C6 counterexample: a write to 0x3FFF falls through the *exclusive*
range pattern `0x2000..0x3FFF` into the ignore-ROM-writes arm, so the
selected bank stays 1 instead of becoming `0x02 &&& 0x1F = 2`. -/
theorem C6_counterexample :
    baseMMU.write_byte 0x3FFF 0x02 = some baseMMU ∧
    baseMMU.cart.rom_bank_selected = 1 ∧
    (0x02 : Nat) &&& 0x1F = 2 ∧ (1 : Nat) ≠ 2 := by
  exact ⟨rfl, rfl, by decide, by decide⟩

/-- C6 amended: for addresses 0x2000..=0x3FFE the write selects
`v &&& 0x1F` (0 coerced to 1) without touching ROM bytes or RAM, and
banked-region reads then return `rom[bank * 0x4000 + (addr - 0x4000)]`. -/
theorem C6_bank_select (m : MMU) (addr v : Nat) (m' : MMU)
    (h1 : 0x2000 ≤ addr) (h2 : addr ≤ 0x3FFE)
    (hw : m.write_byte addr v = some m') :
    m'.cart.rom_bank_selected = (if v &&& 0x1F = 0 then 1 else v &&& 0x1F) ∧
    m'.cart.rom = m.cart.rom ∧
    m'.ram = m.ram ∧
    (∀ a, 0x4000 ≤ a → a ≤ 0x7FFF →
      m'.read_byte a = m'.cart.rom.get? (m'.cart.rom_bank_selected * 0x4000 + (a - 0x4000))) := by
  unfold MMU.write_byte at hw
  rw [if_neg (by omega), if_pos (by constructor <;> omega)] at hw
  injection hw with hw
  subst hw
  refine ⟨by simp [Cart.select_rom_bank], by simp [Cart.select_rom_bank], rfl, ?_⟩
  intro a ha1 ha2
  unfold MMU.read_byte Cart.read_rom
  rw [if_neg (by omega), if_neg (by omega), if_pos (by omega), if_neg (by omega),
    if_pos (by omega)]

def c6MMU : MMU := { baseMMU with cart := baseMMU.cart.select_rom_bank 0x21 }

/-- C6 witness: writing 0x21 to 0x2000 selects bank `0x21 &&& 0x1F = 1`
and a read of 0x5000 goes through the banked formula. -/
theorem C6_witness :
    c6MMU.cart.rom_bank_selected = (if (0x21 : Nat) &&& 0x1F = 0 then 1 else 0x21 &&& 0x1F) ∧
    c6MMU.read_byte 0x5000 =
      c6MMU.cart.rom.get? (c6MMU.cart.rom_bank_selected * 0x4000 + (0x5000 - 0x4000)) := by
  have h := C6_bank_select baseMMU 0x2000 0x21 c6MMU (by decide) (by decide) rfl
  exact ⟨h.1, h.2.2.2 0x5000 (by decide) (by decide)⟩

def c2Cart : Cart := { zeroCart with rom := List.replicate 0x8000 0 }

def c2MMU0 : MMU := MMU.new c2Cart Joypad.new

def c2MMU1 : MMU := { c2MMU0 with cart := c2MMU0.cart.select_rom_bank 0x02 }

def c2CPU : CPU := { CPU.new c2MMU1 with pc := 0xC000, b := 0x40, c := 0x00 }

set_option maxRecDepth 40000 in
/-- Equation lemma for the `0x0A` (LD A,(BC)) arm of `CPU.execute`. -/
theorem execute_arm_0x0A (cpu : CPU) (h : cpu.halted = false) :
    cpu.execute 0x0A = (do
      let arg_u8 ← cpu.mmu.read_byte ((cpu.pc + 1) % 0x10000)
      let arg_u16 ← cpu.mmu.read_short ((cpu.pc + 1) % 0x10000)
      let cpu := { cpu with pc := (cpu.pc +
        (if (0x0A : Nat) == 0xCB then cb_opcode_bytes arg_u8 else opcode_bytes 0x0A)) % 0x10000 }
      let v ← cpu.mmu.read_byte cpu.get_bc
      some ({ cpu with a := v }, 8)) := by
  unfold CPU.execute
  rw [h]
  rfl

set_option maxRecDepth 40000 in
/-- If the operand fetches succeed but the data read at BC panics, the
LD A,(BC) step panics. -/
theorem exec_0x0A_none_generic (cpu : CPU) (u w : Nat) (h : cpu.halted = false)
    (h1 : cpu.mmu.read_byte ((cpu.pc + 1) % 0x10000) = some u)
    (h2 : cpu.mmu.read_short ((cpu.pc + 1) % 0x10000) = some w)
    (h3 : cpu.mmu.read_byte ((cpu.b <<< 8) ||| cpu.c) = none) :
    cpu.execute 0x0A = none := by
  rw [execute_arm_0x0A cpu h]
  rw [h1, h2]
  simp only [Option.bind_eq_bind, Option.some_bind, CPU.get_bc]
  rw [show ({ cpu with pc := (cpu.pc +
    (if (0x0A : Nat) == 0xCB then cb_opcode_bytes u else opcode_bytes 0x0A)) % 0x10000 } : CPU).b
    = cpu.b from rfl]
  rw [show ({ cpu with pc := (cpu.pc +
    (if (0x0A : Nat) == 0xCB then cb_opcode_bytes u else opcode_bytes 0x0A)) % 0x10000 } : CPU).c
    = cpu.c from rfl]
  rw [show ({ cpu with pc := (cpu.pc +
    (if (0x0A : Nat) == 0xCB then cb_opcode_bytes u else opcode_bytes 0x0A)) % 0x10000 } : CPU).mmu
    = cpu.mmu from rfl]
  rw [h3]
  rfl

set_option maxRecDepth 40000 in
/-- C2: on a 32 KiB ROM the guest can select bank 2 by writing to
0x2000; the next banked read indexes `rom[0x8000]`, which is out of
bounds — a panic (`none`), reached by a CPU step executing
LD A,(BC) with BC = 0x4000. -/
theorem C2_bank_read_panics :
    c2Cart.rom.length = 0x8000 ∧
    c2MMU0.write_byte 0x2000 0x02 = some c2MMU1 ∧
    c2MMU1.cart.rom_bank_selected = 2 ∧
    c2MMU1.read_byte 0x4000 = none ∧
    c2CPU.execute 0x0A = none := by
  have hread : c2MMU1.read_byte 0x4000 = none := by
    unfold MMU.read_byte
    rw [if_neg (by omega), if_neg (by omega), if_pos (by omega)]
    unfold Cart.read_rom
    rw [if_neg (by omega), if_pos (by omega)]
    rw [show c2MMU1.cart.rom = List.replicate 0x8000 0 from rfl]
    rw [show c2MMU1.cart.rom_bank_selected = 2 from rfl]
    rw [get_replicate]
    norm_num
  refine ⟨?_, rfl, rfl, hread, exec_0x0A_none_generic c2CPU 0 0 rfl rfl rfl hread⟩
  · rw [show c2Cart.rom = List.replicate 0x8000 0 from rfl, List.length_replicate]

/-! ## C1: conditional RET T-cycle counts -/

def c1CPU : CPU := { baseCPU with f := 0x00, pc := 0xC000, sp := 0xD000 }

def c1CPUzc : CPU := { baseCPU with f := 0x90, pc := 0xC000, sp := 0xD000 }

set_option maxRecDepth 40000 in
/-- C1: with the condition true, RET NZ (0xC0), RET Z (0xC8) and
RET C (0xD8) all return 20 T-cycles, but RET NC (0xD0) returns 12 —
the four RET cc opcodes do not share a taken count.
(`c1CPU` has F=0x00, so NZ and NC hold; `c1CPUzc` has F=0x90, so Z and
C hold.) -/
theorem C1_ret_taken_count_mismatch :
    ((c1CPU.execute 0xC0).map fun r => r.2) = some 20 ∧
    ((c1CPUzc.execute 0xC8).map fun r => r.2) = some 20 ∧
    ((c1CPU.execute 0xD0).map fun r => r.2) = some 12 ∧
    ((c1CPUzc.execute 0xD8).map fun r => r.2) = some 20 ∧
    ((c1CPUzc.execute 0xD0).map fun r => r.2) = some 8 ∧
    (12 : Nat) ≠ 20 := by
  exact ⟨rfl, rfl, rfl, rfl, rfl, by decide⟩

/-! ## C8: PUSH rr / POP rr round trip -/

theorem write_byte_ram (m : MMU) (addr v : Nat) (h1 : 0x8000 ≤ addr)
    (h2 : addr ≠ 0xFF00) (h3 : addr ≠ 0xFF46) :
    m.write_byte addr v = some { m with ram := fun a => if a = addr then v else m.ram a } := by
  unfold MMU.write_byte
  rw [if_neg (by omega), if_neg (by omega), if_neg h2, if_neg h3, if_neg (by omega)]

theorem read_byte_ram (m : MMU) (addr : Nat) (h1 : 0x8000 ≤ addr) (h2 : addr ≠ 0xFF00)
    (h3 : addr ≠ 0xFF01) :
    m.read_byte addr = some (m.ram addr) := by
  unfold MMU.read_byte
  rw [if_neg h2, if_neg h3, if_neg (by omega)]

/-- The low stack byte address after a push: `SP - 2` wrapping. -/
def stack_lo (cpu : CPU) : Nat := (cpu.sp + 0x10000 - 2) % 0x10000

/-- The high stack byte address after a push. -/
def stack_hi (cpu : CPU) : Nat := (stack_lo cpu + 1) % 0x10000

/-- The side conditions under which the two stack bytes land in (and are
read back from) plain RAM: both addresses are ≥ 0x8000 and avoid the
trapped 0xFF00/0xFF01/0xFF46 registers. -/
def SafeStackAddrs (cpu : CPU) : Prop :=
  cpu.sp < 0x10000 ∧
  0x8000 ≤ stack_lo cpu ∧ stack_lo cpu ≠ 0xFF00 ∧ stack_lo cpu ≠ 0xFF01 ∧
    stack_lo cpu ≠ 0xFF46 ∧
  0x8000 ≤ stack_hi cpu ∧ stack_hi cpu ≠ 0xFF00 ∧ stack_hi cpu ≠ 0xFF01 ∧
    stack_hi cpu ≠ 0xFF46

instance (cpu : CPU) : Decidable (SafeStackAddrs cpu) := by
  unfold SafeStackAddrs
  infer_instance

set_option maxRecDepth 40000 in
theorem push_eq (cpu : CPU) (v : Nat) (hs : SafeStackAddrs cpu) :
    cpu.push v = some
      ({ cpu with
          sp := stack_lo cpu,
          mmu := { cpu.mmu with
            ram := fun a => if a = stack_hi cpu then v >>> 8 else if a = stack_lo cpu then v &&& 0xFF else cpu.mmu.ram a } }) := by
  obtain ⟨hsp, hlo1, hlo2, hlo3, hlo4, hhi1, hhi2, hhi3, hhi4⟩ := hs
  have e0 : cpu.push v = (cpu.mmu.write_short (stack_lo cpu) v).bind
      fun m => some { cpu with sp := stack_lo cpu, mmu := m } := rfl
  have e1 : cpu.mmu.write_short (stack_lo cpu) v =
      (cpu.mmu.write_byte (stack_lo cpu) (v &&& 0xFF)).bind
        fun m1 => m1.write_byte (stack_hi cpu) (v >>> 8) := rfl
  rw [e0, e1, write_byte_ram cpu.mmu (stack_lo cpu) (v &&& 0xFF) hlo1 hlo2 hlo4]
  rw [Option.some_bind]
  rw [write_byte_ram _ (stack_hi cpu) (v >>> 8) hhi1 hhi2 hhi4]
  rw [Option.some_bind]

theorem stack_lo_ne_hi (cpu : CPU) (hs : SafeStackAddrs cpu) : stack_lo cpu ≠ stack_hi cpu := by
  obtain ⟨hsp, hlo1, hlo2, hlo3, hlo4, hhi1, hhi2, hhi3, hhi4⟩ := hs
  unfold stack_hi at hhi1 ⊢
  unfold stack_lo at hlo1 ⊢
  omega

/-- Reading the twice-updated RAM (the two bytes of a 16-bit store). -/
theorem read_byte_double_upd (m : MMU) (hi lo A B addr : Nat)
    (h1 : 0x8000 ≤ addr) (h2 : addr ≠ 0xFF00) (h3 : addr ≠ 0xFF01) :
    ({ m with ram := fun a => if a = hi then A else if a = lo then B else m.ram a } : MMU).read_byte addr
      = some (if addr = hi then A else if addr = lo then B else m.ram addr) := by
  unfold MMU.read_byte
  rw [if_neg h2, if_neg h3, if_neg (by omega)]

set_option maxRecDepth 40000 in
theorem pop_after_push (cpu : CPU) (v : Nat) (hs : SafeStackAddrs cpu)
    (cpu1 : CPU) (h1 : cpu.push v = some cpu1) :
    cpu1.pop = some (v, { cpu1 with sp := cpu.sp }) := by
  have hne := stack_lo_ne_hi cpu hs
  rw [push_eq cpu v hs] at h1
  injection h1 with h1
  subst h1
  obtain ⟨hsp, hlo1, hlo2, hlo3, hlo4, hhi1, hhi2, hhi3, hhi4⟩ := hs
  have hsp2 : (stack_lo cpu + 2) % 0x10000 = cpu.sp := by
    unfold stack_lo
    omega
  have e0 : ∀ c : CPU, c.pop = (c.mmu.read_short c.sp).bind
      fun val => some (val, { c with sp := (c.sp + 2) % 0x10000 }) := fun _ => rfl
  rw [e0]
  have e1 : ∀ m : MMU, m.read_short (stack_lo cpu) =
      (m.read_byte (stack_lo cpu)).bind fun lo =>
        (m.read_byte (stack_hi cpu)).bind fun hi => some (lo ||| (hi <<< 8)) := fun _ => rfl
  rw [e1]
  rw [read_byte_double_upd cpu.mmu (stack_hi cpu) (stack_lo cpu) (v >>> 8) (v &&& 0xFF)
    (stack_lo cpu) hlo1 hlo2 hlo3]
  rw [if_neg hne, if_pos rfl]
  rw [Option.some_bind]
  rw [read_byte_double_upd cpu.mmu (stack_hi cpu) (stack_lo cpu) (v >>> 8) (v &&& 0xFF)
    (stack_hi cpu) hhi1 hhi2 hhi3]
  rw [if_pos rfl]
  rw [Option.some_bind]
  rw [bytes_recombine, hsp2, Option.some_bind]
set_option maxRecDepth 40000 in
/-- Equation lemma for the `0xC5` arm of `CPU.execute` (the PC advance
`opcode_bytes 0xC5 = 1` is pre-reduced). -/
theorem execute_arm_0xC5 (cpu : CPU) (h : cpu.halted = false) :
    cpu.execute 0xC5 = (do
      let arg_u8 ← cpu.mmu.read_byte ((cpu.pc + 1) % 0x10000)
      let arg_u16 ← cpu.mmu.read_short ((cpu.pc + 1) % 0x10000)
      let c ← ({ cpu with pc := (cpu.pc + 1) % 0x10000 } : CPU).push
        ({ cpu with pc := (cpu.pc + 1) % 0x10000 } : CPU).get_bc
      some (c, 16)) := by
  unfold CPU.execute
  rw [h]
  rfl

set_option maxRecDepth 40000 in
/-- Equation lemma for the `0xC1` arm of `CPU.execute` (the PC advance
`opcode_bytes 0xC1 = 1` is pre-reduced). -/
theorem execute_arm_0xC1 (cpu : CPU) (h : cpu.halted = false) :
    cpu.execute 0xC1 = (do
      let arg_u8 ← cpu.mmu.read_byte ((cpu.pc + 1) % 0x10000)
      let arg_u16 ← cpu.mmu.read_short ((cpu.pc + 1) % 0x10000)
      let p ← ({ cpu with pc := (cpu.pc + 1) % 0x10000 } : CPU).pop
      some (p.2.set_bc p.1, 12)) := by
  unfold CPU.execute
  rw [h]
  rfl

set_option maxRecDepth 40000 in
/-- Equation lemma for the `0xD5` arm of `CPU.execute` (the PC advance
`opcode_bytes 0xD5 = 1` is pre-reduced). -/
theorem execute_arm_0xD5 (cpu : CPU) (h : cpu.halted = false) :
    cpu.execute 0xD5 = (do
      let arg_u8 ← cpu.mmu.read_byte ((cpu.pc + 1) % 0x10000)
      let arg_u16 ← cpu.mmu.read_short ((cpu.pc + 1) % 0x10000)
      let c ← ({ cpu with pc := (cpu.pc + 1) % 0x10000 } : CPU).push
        ({ cpu with pc := (cpu.pc + 1) % 0x10000 } : CPU).get_de
      some (c, 16)) := by
  unfold CPU.execute
  rw [h]
  rfl

set_option maxRecDepth 40000 in
/-- Equation lemma for the `0xD1` arm of `CPU.execute` (the PC advance
`opcode_bytes 0xD1 = 1` is pre-reduced). -/
theorem execute_arm_0xD1 (cpu : CPU) (h : cpu.halted = false) :
    cpu.execute 0xD1 = (do
      let arg_u8 ← cpu.mmu.read_byte ((cpu.pc + 1) % 0x10000)
      let arg_u16 ← cpu.mmu.read_short ((cpu.pc + 1) % 0x10000)
      let p ← ({ cpu with pc := (cpu.pc + 1) % 0x10000 } : CPU).pop
      some (p.2.set_de p.1, 12)) := by
  unfold CPU.execute
  rw [h]
  rfl

set_option maxRecDepth 40000 in
/-- Equation lemma for the `0xE5` arm of `CPU.execute` (the PC advance
`opcode_bytes 0xE5 = 1` is pre-reduced). -/
theorem execute_arm_0xE5 (cpu : CPU) (h : cpu.halted = false) :
    cpu.execute 0xE5 = (do
      let arg_u8 ← cpu.mmu.read_byte ((cpu.pc + 1) % 0x10000)
      let arg_u16 ← cpu.mmu.read_short ((cpu.pc + 1) % 0x10000)
      let c ← ({ cpu with pc := (cpu.pc + 1) % 0x10000 } : CPU).push
        ({ cpu with pc := (cpu.pc + 1) % 0x10000 } : CPU).get_hl
      some (c, 16)) := by
  unfold CPU.execute
  rw [h]
  rfl

set_option maxRecDepth 40000 in
/-- Equation lemma for the `0xE1` arm of `CPU.execute` (the PC advance
`opcode_bytes 0xE1 = 1` is pre-reduced). -/
theorem execute_arm_0xE1 (cpu : CPU) (h : cpu.halted = false) :
    cpu.execute 0xE1 = (do
      let arg_u8 ← cpu.mmu.read_byte ((cpu.pc + 1) % 0x10000)
      let arg_u16 ← cpu.mmu.read_short ((cpu.pc + 1) % 0x10000)
      let p ← ({ cpu with pc := (cpu.pc + 1) % 0x10000 } : CPU).pop
      some (p.2.set_hl p.1, 12)) := by
  unfold CPU.execute
  rw [h]
  rfl

set_option maxRecDepth 40000 in
/-- Equation lemma for the `0xF5` arm of `CPU.execute` (the PC advance
`opcode_bytes 0xF5 = 1` is pre-reduced). -/
theorem execute_arm_0xF5 (cpu : CPU) (h : cpu.halted = false) :
    cpu.execute 0xF5 = (do
      let arg_u8 ← cpu.mmu.read_byte ((cpu.pc + 1) % 0x10000)
      let arg_u16 ← cpu.mmu.read_short ((cpu.pc + 1) % 0x10000)
      let c ← ({ cpu with pc := (cpu.pc + 1) % 0x10000 } : CPU).push
        ({ cpu with pc := (cpu.pc + 1) % 0x10000 } : CPU).get_af
      some (c, 16)) := by
  unfold CPU.execute
  rw [h]
  rfl

set_option maxRecDepth 40000 in
/-- Equation lemma for the `0xF1` arm of `CPU.execute` (the PC advance
`opcode_bytes 0xF1 = 1` is pre-reduced). -/
theorem execute_arm_0xF1 (cpu : CPU) (h : cpu.halted = false) :
    cpu.execute 0xF1 = (do
      let arg_u8 ← cpu.mmu.read_byte ((cpu.pc + 1) % 0x10000)
      let arg_u16 ← cpu.mmu.read_short ((cpu.pc + 1) % 0x10000)
      let p ← ({ cpu with pc := (cpu.pc + 1) % 0x10000 } : CPU).pop
      some (p.2.set_af (p.1 &&& 0xFFF0), 12)) := by
  unfold CPU.execute
  rw [h]
  rfl

theorem shiftLeft_and_shiftLeft (x y k : Nat) : (x <<< k) &&& (y <<< k) = (x &&& y) <<< k := by
  apply Nat.eq_of_testBit_eq
  intro i
  simp only [Nat.testBit_and, Nat.testBit_shiftLeft]
  by_cases h : k ≤ i
  · simp [h]
  · simp [h]

theorem shiftLeft_and_small (x y k : Nat) (hy : y < 2 ^ k) : (x <<< k) &&& y = 0 := by
  apply Nat.eq_of_testBit_eq
  intro i
  simp only [Nat.testBit_and, Nat.testBit_shiftLeft, Nat.zero_testBit]
  by_cases h : k ≤ i
  · have hyb : y.testBit i = false :=
      Nat.testBit_lt_two_pow (lt_of_lt_of_le hy (Nat.pow_le_pow_right (by norm_num) h))
    simp [hyb]
  · simp [h]

theorem pair_or_eq_add (b c : Nat) (hc : c < 0x100) : (b <<< 8) ||| c = 2 ^ 8 * b + c := by
  rw [Nat.shiftLeft_eq, Nat.mul_comm]
  exact (Nat.mul_add_lt_is_or hc b).symm

theorem pair_hi (b c : Nat) (hb : b < 0x100) (hc : c < 0x100) :
    (((b <<< 8) ||| c) >>> 8) % 0x100 = b := by
  rw [pair_or_eq_add b c hc, Nat.shiftRight_eq_div_pow]
  norm_num
  omega

theorem pair_lo (b c : Nat) (hc : c < 0x100) : ((b <<< 8) ||| c) % 0x100 = c := by
  rw [pair_or_eq_add b c hc]
  omega

theorem af_and_FFF0 (a f : Nat) (ha : a < 0x100) (hf : f < 0x100) :
    ((a <<< 8) ||| f) &&& 0xFFF0 = (a <<< 8) ||| (f &&& 0xF0) := by
  rw [Nat.and_distrib_right]
  have h1 : f &&& 0xFFF0 = f &&& 0xF0 := by
    conv_lhs => rw [← Nat.and_pow_two_sub_one_of_lt_two_pow (show f < 2 ^ 8 from hf)]
    rw [Nat.and_assoc]
    rw [show (2 ^ 8 - 1 : Nat) &&& 65520 = 240 from by decide]
  have h2 : (a <<< 8) &&& 0xFFF0 = a <<< 8 := by
    rw [show (0xFFF0 : Nat) = (0xFF <<< 8) ||| 0xF0 from by decide]
    rw [Nat.and_or_distrib_left, shiftLeft_and_shiftLeft,
      shiftLeft_and_small a 0xF0 8 (by norm_num)]
    rw [Nat.and_pow_two_sub_one_of_lt_two_pow (show a < 2 ^ 8 from ha), Nat.or_zero]
  rw [h1, h2]

theorem af_hi (a f : Nat) (ha : a < 0x100) (hf : f < 0x100) :
    ((((a <<< 8) ||| f) &&& 0xFFF0) >>> 8) % 0x100 = a := by
  rw [af_and_FFF0 a f ha hf]
  exact pair_hi a (f &&& 0xF0) ha (lt_of_le_of_lt Nat.and_le_right (by omega))

theorem af_lo (a f : Nat) (ha : a < 0x100) (hf : f < 0x100) :
    (((a <<< 8) ||| f) &&& 0xFFF0) % 0x100 = f &&& 0xF0 := by
  rw [af_and_FFF0 a f ha hf]
  exact pair_lo a (f &&& 0xF0) (lt_of_le_of_lt Nat.and_le_right (by omega))

set_option maxRecDepth 40000 in
/-- `pop_after_push` stated for the CPU after the POP instruction's PC
advance (the PC field is irrelevant to the stack traffic). -/
theorem pop_after_push_pc (cpu : CPU) (v : Nat) (hs : SafeStackAddrs cpu)
    (cpu1 : CPU) (h1 : cpu.push v = some cpu1) (npc : Nat) :
    ({ cpu1 with pc := npc } : CPU).pop = some (v, { cpu1 with pc := npc, sp := cpu.sp }) := by
  have hne := stack_lo_ne_hi cpu hs
  rw [push_eq cpu v hs] at h1
  injection h1 with h1
  subst h1
  obtain ⟨hsp, hlo1, hlo2, hlo3, hlo4, hhi1, hhi2, hhi3, hhi4⟩ := hs
  have hsp2 : (stack_lo cpu + 2) % 0x10000 = cpu.sp := by
    unfold stack_lo
    omega
  have e0 : ∀ c : CPU, c.pop = (c.mmu.read_short c.sp).bind
      fun val => some (val, { c with sp := (c.sp + 2) % 0x10000 }) := fun _ => rfl
  rw [e0]
  have e1 : ∀ m : MMU, m.read_short (stack_lo cpu) =
      (m.read_byte (stack_lo cpu)).bind fun lo =>
        (m.read_byte (stack_hi cpu)).bind fun hi => some (lo ||| (hi <<< 8)) := fun _ => rfl
  rw [e1]
  rw [read_byte_double_upd cpu.mmu (stack_hi cpu) (stack_lo cpu) (v >>> 8) (v &&& 0xFF)
    (stack_lo cpu) hlo1 hlo2 hlo3]
  rw [if_neg hne, if_pos rfl]
  rw [Option.some_bind]
  rw [read_byte_double_upd cpu.mmu (stack_hi cpu) (stack_lo cpu) (v >>> 8) (v &&& 0xFF)
    (stack_hi cpu) hhi1 hhi2 hhi3]
  rw [if_pos rfl]
  rw [Option.some_bind]
  rw [bytes_recombine, hsp2, Option.some_bind]

set_option maxRecDepth 40000 in
/-- C8 amended: when the CPU is not halted, the two pushed stack bytes
land in plain RAM (`SafeStackAddrs`), and the register file holds bytes,
executing PUSH rr then POP rr restores rr and SP exactly — except that
POP AF masks the low nibble of F. -/
theorem C8_push_pop_roundtrip (cpu : CPU)
    (hh : cpu.halted = false) (hs : SafeStackAddrs cpu)
    (hb : cpu.b < 0x100) (hc : cpu.c < 0x100) (hd : cpu.d < 0x100) (he : cpu.e < 0x100)
    (hhr : cpu.h < 0x100) (hlr : cpu.l < 0x100) (ha : cpu.a < 0x100) (hf : cpu.f < 0x100) :
    (∀ r1 r2, cpu.execute 0xC5 = some r1 → r1.1.execute 0xC1 = some r2 →
      r2.1.b = cpu.b ∧ r2.1.c = cpu.c ∧ r2.1.sp = cpu.sp) ∧
    (∀ r1 r2, cpu.execute 0xD5 = some r1 → r1.1.execute 0xD1 = some r2 →
      r2.1.d = cpu.d ∧ r2.1.e = cpu.e ∧ r2.1.sp = cpu.sp) ∧
    (∀ r1 r2, cpu.execute 0xE5 = some r1 → r1.1.execute 0xE1 = some r2 →
      r2.1.h = cpu.h ∧ r2.1.l = cpu.l ∧ r2.1.sp = cpu.sp) ∧
    (∀ r1 r2, cpu.execute 0xF5 = some r1 → r1.1.execute 0xF1 = some r2 →
      r2.1.a = cpu.a ∧ r2.1.f = cpu.f &&& 0xF0 ∧ r2.1.sp = cpu.sp) := by
  refine ⟨?_, ?_, ?_, ?_⟩
  · intro r1 r2 h1 h2
    rw [execute_arm_0xC5 cpu hh, Option.bind_eq_bind] at h1
    obtain ⟨a8, ha8, h1⟩ := Option.bind_eq_some.mp h1
    obtain ⟨a16, ha16, h1⟩ := Option.bind_eq_some.mp h1
    obtain ⟨cA, hpush, h1⟩ := Option.bind_eq_some.mp h1
    replace h1 := Option.some.inj h1
    subst h1
    have hpe := push_eq ({ cpu with pc := (cpu.pc + 1) % 0x10000 } : CPU)
      (({ cpu with pc := (cpu.pc + 1) % 0x10000 } : CPU).get_bc) hs
    rw [hpe] at hpush
    replace hpush := Option.some.inj hpush
    have hhA : cA.halted = false := by
      rw [← hpush]
      exact hh
    rw [execute_arm_0xC1 cA hhA, Option.bind_eq_bind] at h2
    obtain ⟨b8, hb8, h2⟩ := Option.bind_eq_some.mp h2
    obtain ⟨b16, hb16, h2⟩ := Option.bind_eq_some.mp h2
    obtain ⟨p, hpop, h2⟩ := Option.bind_eq_some.mp h2
    replace h2 := Option.some.inj h2
    subst h2
    have hpp := pop_after_push_pc ({ cpu with pc := (cpu.pc + 1) % 0x10000 } : CPU)
      (({ cpu with pc := (cpu.pc + 1) % 0x10000 } : CPU).get_bc) hs cA
      (by rw [hpe, hpush]) ((cA.pc + 1) % 0x10000)
    rw [hpp] at hpop
    replace hpop := Option.some.inj hpop
    subst hpop
    refine ⟨?_, ?_, ?_⟩
    · exact pair_hi cpu.b cpu.c hb hc
    · exact pair_lo cpu.b cpu.c hc
    · rfl
  · intro r1 r2 h1 h2
    rw [execute_arm_0xD5 cpu hh, Option.bind_eq_bind] at h1
    obtain ⟨a8, ha8, h1⟩ := Option.bind_eq_some.mp h1
    obtain ⟨a16, ha16, h1⟩ := Option.bind_eq_some.mp h1
    obtain ⟨cA, hpush, h1⟩ := Option.bind_eq_some.mp h1
    replace h1 := Option.some.inj h1
    subst h1
    have hpe := push_eq ({ cpu with pc := (cpu.pc + 1) % 0x10000 } : CPU)
      (({ cpu with pc := (cpu.pc + 1) % 0x10000 } : CPU).get_de) hs
    rw [hpe] at hpush
    replace hpush := Option.some.inj hpush
    have hhA : cA.halted = false := by
      rw [← hpush]
      exact hh
    rw [execute_arm_0xD1 cA hhA, Option.bind_eq_bind] at h2
    obtain ⟨b8, hb8, h2⟩ := Option.bind_eq_some.mp h2
    obtain ⟨b16, hb16, h2⟩ := Option.bind_eq_some.mp h2
    obtain ⟨p, hpop, h2⟩ := Option.bind_eq_some.mp h2
    replace h2 := Option.some.inj h2
    subst h2
    have hpp := pop_after_push_pc ({ cpu with pc := (cpu.pc + 1) % 0x10000 } : CPU)
      (({ cpu with pc := (cpu.pc + 1) % 0x10000 } : CPU).get_de) hs cA
      (by rw [hpe, hpush]) ((cA.pc + 1) % 0x10000)
    rw [hpp] at hpop
    replace hpop := Option.some.inj hpop
    subst hpop
    refine ⟨?_, ?_, ?_⟩
    · exact pair_hi cpu.d cpu.e hd he
    · exact pair_lo cpu.d cpu.e he
    · rfl
  · intro r1 r2 h1 h2
    rw [execute_arm_0xE5 cpu hh, Option.bind_eq_bind] at h1
    obtain ⟨a8, ha8, h1⟩ := Option.bind_eq_some.mp h1
    obtain ⟨a16, ha16, h1⟩ := Option.bind_eq_some.mp h1
    obtain ⟨cA, hpush, h1⟩ := Option.bind_eq_some.mp h1
    replace h1 := Option.some.inj h1
    subst h1
    have hpe := push_eq ({ cpu with pc := (cpu.pc + 1) % 0x10000 } : CPU)
      (({ cpu with pc := (cpu.pc + 1) % 0x10000 } : CPU).get_hl) hs
    rw [hpe] at hpush
    replace hpush := Option.some.inj hpush
    have hhA : cA.halted = false := by
      rw [← hpush]
      exact hh
    rw [execute_arm_0xE1 cA hhA, Option.bind_eq_bind] at h2
    obtain ⟨b8, hb8, h2⟩ := Option.bind_eq_some.mp h2
    obtain ⟨b16, hb16, h2⟩ := Option.bind_eq_some.mp h2
    obtain ⟨p, hpop, h2⟩ := Option.bind_eq_some.mp h2
    replace h2 := Option.some.inj h2
    subst h2
    have hpp := pop_after_push_pc ({ cpu with pc := (cpu.pc + 1) % 0x10000 } : CPU)
      (({ cpu with pc := (cpu.pc + 1) % 0x10000 } : CPU).get_hl) hs cA
      (by rw [hpe, hpush]) ((cA.pc + 1) % 0x10000)
    rw [hpp] at hpop
    replace hpop := Option.some.inj hpop
    subst hpop
    refine ⟨?_, ?_, ?_⟩
    · exact pair_hi cpu.h cpu.l hhr hlr
    · exact pair_lo cpu.h cpu.l hlr
    · rfl
  · intro r1 r2 h1 h2
    rw [execute_arm_0xF5 cpu hh, Option.bind_eq_bind] at h1
    obtain ⟨a8, ha8, h1⟩ := Option.bind_eq_some.mp h1
    obtain ⟨a16, ha16, h1⟩ := Option.bind_eq_some.mp h1
    obtain ⟨cA, hpush, h1⟩ := Option.bind_eq_some.mp h1
    replace h1 := Option.some.inj h1
    subst h1
    have hpe := push_eq ({ cpu with pc := (cpu.pc + 1) % 0x10000 } : CPU)
      (({ cpu with pc := (cpu.pc + 1) % 0x10000 } : CPU).get_af) hs
    rw [hpe] at hpush
    replace hpush := Option.some.inj hpush
    have hhA : cA.halted = false := by
      rw [← hpush]
      exact hh
    rw [execute_arm_0xF1 cA hhA, Option.bind_eq_bind] at h2
    obtain ⟨b8, hb8, h2⟩ := Option.bind_eq_some.mp h2
    obtain ⟨b16, hb16, h2⟩ := Option.bind_eq_some.mp h2
    obtain ⟨p, hpop, h2⟩ := Option.bind_eq_some.mp h2
    replace h2 := Option.some.inj h2
    subst h2
    have hpp := pop_after_push_pc ({ cpu with pc := (cpu.pc + 1) % 0x10000 } : CPU)
      (({ cpu with pc := (cpu.pc + 1) % 0x10000 } : CPU).get_af) hs cA
      (by rw [hpe, hpush]) ((cA.pc + 1) % 0x10000)
    rw [hpp] at hpop
    replace hpop := Option.some.inj hpop
    subst hpop
    refine ⟨?_, ?_, ?_⟩
    · exact af_hi cpu.a cpu.f ha hf
    · exact af_lo cpu.a cpu.f ha hf
    · rfl

def c8wCPU : CPU := { baseCPU with sp := 0xD000, pc := 0xC000 }

def c8wR1 : CPU × Nat := (c8wCPU.execute 0xC5).getD (c8wCPU, 0)

def c8wR2 : CPU × Nat := (c8wR1.1.execute 0xC1).getD (c8wCPU, 0)

set_option maxRecDepth 40000 in
/-- C8 witness: a concrete PUSH BC / POP BC pair with the stack at
0xD000 restores B, C and SP. -/
theorem C8_witness : c8wR2.1.b = c8wCPU.b ∧ c8wR2.1.c = c8wCPU.c ∧ c8wR2.1.sp = c8wCPU.sp :=
  (C8_push_pop_roundtrip c8wCPU rfl (by decide) (by decide) (by decide) (by decide) (by decide)
    (by decide) (by decide) (by decide) (by decide)).1 c8wR1 c8wR2 rfl rfl

def c8xCPU : CPU := { baseCPU with sp := 0x12, pc := 0xC000, b := 0x12, c := 0x34 }

set_option maxRecDepth 40000 in
/-- C8 counterexample: with SP = 0x0012 the pushed bytes go to the ROM
address space (the write is interpreted as an MBC command / dropped),
and the POP reads ROM bytes instead, so BC is not restored — the claim
quantified over *every* CPU and memory state is false. -/
theorem C8_counterexample :
    (((c8xCPU.execute 0xC5).bind fun r1 => r1.1.execute 0xC1).map fun r2 => r2.1.get_bc) =
      some 0 ∧
    c8xCPU.get_bc = 0x1234 ∧ (0 : Nat) ≠ 0x1234 := by
  exact ⟨rfl, rfl, by decide⟩

/-! ## C3: PPU mode/LY state machine -/

theorem fb_write_fields (p : PPU) (i v : Nat) (p' : PPU) (h : p.fb_write i v = some p') :
    p'.current_mode = p.current_mode ∧ p'.current_cycles = p.current_cycles := by
  unfold PPU.fb_write at h
  split at h
  · replace h := Option.some.inj h
    subst h
    exact ⟨rfl, rfl⟩
  · exact Option.noConfusion h

theorem draw_background_pixel_fields (p : PPU) (m : MMU) (s x : Nat) (p' : PPU)
    (h : p.draw_background_pixel m s x = some p') :
    p'.current_mode = p.current_mode ∧ p'.current_cycles = p.current_cycles := by
  unfold PPU.draw_background_pixel at h
  rw [Option.bind_eq_bind] at h
  obtain ⟨c, hc, h⟩ := Option.bind_eq_some.mp h
  exact fb_write_fields p _ c p' h

theorem draw_window_pixel_fields (p : PPU) (m : MMU) (s x : Nat) (p' : PPU)
    (h : p.draw_window_pixel m s x = some p') :
    p'.current_mode = p.current_mode ∧ p'.current_cycles = p.current_cycles := by
  unfold PPU.draw_window_pixel at h
  rw [Option.bind_eq_bind] at h
  obtain ⟨c, hc, h⟩ := Option.bind_eq_some.mp h
  match c with
  | none =>
    replace h := Option.some.inj h
    subst h
    exact ⟨rfl, rfl⟩
  | some color =>
    exact fb_write_fields p _ color p' h

theorem foldlM_fields (f : PPU → Nat → Option PPU)
    (hf : ∀ p x p', f p x = some p' →
      p'.current_mode = p.current_mode ∧ p'.current_cycles = p.current_cycles) :
    ∀ (xs : List Nat) (p p' : PPU), xs.foldlM f p = some p' →
      p'.current_mode = p.current_mode ∧ p'.current_cycles = p.current_cycles := by
  intro xs
  induction xs with
  | nil =>
    intro p p' h
    have e : List.foldlM f p ([] : List Nat) = some p := rfl
    rw [e] at h
    replace h := Option.some.inj h
    subst h
    exact ⟨rfl, rfl⟩
  | cons x xs ih =>
    intro p p' h
    have e : List.foldlM f p (x :: xs) = (f p x).bind fun q => List.foldlM f q xs := rfl
    rw [e] at h
    obtain ⟨q, hq, h⟩ := Option.bind_eq_some.mp h
    have h1 := hf p x q hq
    have h2 := ih q p' h
    exact ⟨h2.1.trans h1.1, h2.2.trans h1.2⟩

theorem draw_background_scanline_fields (p : PPU) (m : MMU) (s : Nat) (p' : PPU)
    (h : p.draw_background_scanline m s = some p') :
    p'.current_mode = p.current_mode ∧ p'.current_cycles = p.current_cycles :=
  foldlM_fields _ (fun p x p' hx => draw_background_pixel_fields p m s x p' hx) _ p p' h

theorem draw_window_scanline_fields (p : PPU) (m : MMU) (s : Nat) (p' : PPU)
    (h : p.draw_window_scanline m s = some p') :
    p'.current_mode = p.current_mode ∧ p'.current_cycles = p.current_cycles :=
  foldlM_fields _ (fun p x p' hx => draw_window_pixel_fields p m s x p' hx) _ p p' h

theorem draw_scanline_fields (p : PPU) (m : MMU) (s : Nat) (p' : PPU)
    (h : p.draw_scanline m s = some p') :
    p'.current_mode = p.current_mode ∧ p'.current_cycles = p.current_cycles := by
  unfold PPU.draw_scanline at h
  obtain ⟨lcdc, hl, h⟩ := Option.bind_eq_some.mp h
  split at h
  · replace h := Option.some.inj h
    subst h
    exact ⟨rfl, rfl⟩
  · obtain ⟨p1, h1, h⟩ := Option.bind_eq_some.mp h
    have f1 : p1.current_mode = p.current_mode ∧ p1.current_cycles = p.current_cycles := by
      split at h1
      · exact draw_background_scanline_fields p m s p1 h1
      · replace h1 := Option.some.inj h1
        subst h1
        exact ⟨rfl, rfl⟩
    obtain ⟨p2, h2, h⟩ := Option.bind_eq_some.mp h
    have f2 : p2.current_mode = p1.current_mode ∧ p2.current_cycles = p1.current_cycles := by
      split at h2
      · exact draw_window_scanline_fields p1 m s p2 h2
      · replace h2 := Option.some.inj h2
        subst h2
        exact ⟨rfl, rfl⟩
    replace h := Option.some.inj h
    subst h
    split
    · exact ⟨f2.1.trans f1.1, f2.2.trans f1.2⟩
    · exact ⟨f2.1.trans f1.1, f2.2.trans f1.2⟩
